import Mathlib

/-!
# Autopin+ `Watchdog` start-up protocol

A shallow embedding of `src/AutopinPlus/Watchdog.cpp`: the factory steps
(`createContext`, `createOSServices`, `createPerformanceMonitors`,
`createObservedProcess`, `createControlStrategy`, `createDataLoggers`), the
topology assembly `createComponentConnections` and the sequencer
`slot_watchdogRun`.

The `Watchdog` object is a record that is passed from step to step.  Every
call that leaves the translation unit (a constructor, `init()`, `start()`,
`getPid()`, `setObservedProcessPid()`, `connect`, an emitted signal, a
`report` or `info` on the context) is appended to a trace, each entry stamped
with the value `context->isError()` had when the call was made.  A
dereference of an empty `unique_ptr` makes the step return `none`.
-/

namespace AutopinPlus

/-! ## Collaborator interfaces -/

/-- Modelled from the spec: the error taxonomy of `Error.h` (section 7), which
is not part of the sources.  `BAD_CONFIG` and `UNSUPPORTED` are the two kinds
`Watchdog.cpp` uses; `RUNTIME` stands for the implementation-specific kinds
raised by collaborators. -/
inductive Error where
  | BAD_CONFIG
  | UNSUPPORTED
  | RUNTIME (code : Nat)
  deriving DecidableEq, Repr

/-- The three arguments of one `AutopinContext::report` call. -/
structure Report where
  kind : Error
  category : String
  message : String
  deriving DecidableEq, Repr

/-- The interface of `Configuration` (section 6) used by `Watchdog.cpp`; the
class itself is outside the sources, so its three queries are parameters. -/
structure Configuration where
  configOptionExists : String → Int
  getConfigOption : String → String
  getConfigOptionList : String → List String

/-- Modelled from the spec: `AutopinContext` (section 4.1), a scope name, the
error flag and the recorded errors.  The class is not part of the sources. -/
structure AutopinContext where
  name : String
  isError : Bool
  reports : List Report
  deriving DecidableEq, Repr

/-- Modelled from the spec: the `AutopinContext(name)` constructor, a scope
without errors. -/
def AutopinContext.new (name : String) : AutopinContext :=
  { name := name, isError := false, reports := [] }

/-- Modelled from the spec: `AutopinContext::report` always records the error
and puts the scope in error state; the flag is never cleared. -/
def AutopinContext.report (c : AutopinContext) (r : Report) : AutopinContext :=
  { c with isError := true, reports := c.reports ++ [r] }

inductive MonitorImpl where
  | ClustSafe
  | GPerf
  | Random
  | PageMigrate
  deriving DecidableEq, Repr

inductive StrategyImpl where
  | Autopin1
  | Noop
  | Compact
  | Scatter
  deriving DecidableEq, Repr

inductive LoggerImpl where
  | External
  deriving DecidableEq, Repr

/-- One element of `Watchdog::monitors`: the implementation class and the
name handed to its constructor. -/
structure Monitor where
  impl : MonitorImpl
  name : String
  deriving DecidableEq, Repr

/-- The object held by `Watchdog::strategy`. -/
structure ControlStrategy where
  impl : StrategyImpl
  deriving DecidableEq, Repr

/-- One element of `Watchdog::loggers`. -/
structure DataLogger where
  impl : LoggerImpl
  deriving DecidableEq, Repr

/-- The object held by `Watchdog::service`. -/
structure OSServices where
  deriving DecidableEq, Repr

/-- The object held by `Watchdog::process`. -/
structure ObservedProcess where
  deriving DecidableEq, Repr

/-- The calls `Watchdog.cpp` makes on its collaborators. -/
inductive Call where
  | OSServices_new
  | Monitor_new (m : Monitor)
  | ObservedProcess_new
  | ControlStrategy_new (s : ControlStrategy)
  | Logger_new (l : DataLogger)
  | OSServices_init
  | Monitor_init (m : Monitor)
  | ObservedProcess_init
  | ControlStrategy_init (s : ControlStrategy)
  | Logger_init (l : DataLogger)
  | ObservedProcess_start
  | ObservedProcess_getPid
  | Monitor_setObservedProcessPid (m : Monitor) (pid : Int)
  deriving DecidableEq, Repr

/-- The objects that take part in a Qt connection. -/
inductive Endpoint where
  | signalDispatcher
  | context
  | service
  | process
  | strategy
  | watchdog
  deriving DecidableEq, Repr

/-- One `connect(sender, SIGNAL(..), receiver, SLOT(..) or SIGNAL(..))`. -/
structure Connection where
  sender : Endpoint
  signal : String
  receiver : Endpoint
  method : String
  deriving DecidableEq, Repr

/-- What the `Watchdog` does that is visible outside of it. -/
inductive Event where
  | report (r : Report)
  | collabReport (r : Report)
  | info (msg : String)
  | checkpoint (gate : Nat)
  | call (c : Call)
  | connect (k : Connection)
  | sig_watchdogStop
  | sig_watchdogReady
  deriving DecidableEq, Repr

/-- A trace entry: the event and `context->isError()` at the moment it
happened. -/
structure Entry where
  inError : Bool
  ev : Event
  deriving DecidableEq, Repr

/-- The behaviour of the collaborators: which errors a call reports on the
shared context, given everything that happened before it, and which pid
`getPid()` returns. -/
structure Collaborators where
  reports : List Entry → Call → List Report
  getPid : List Entry → Int

/-! ## The `Watchdog` object -/

/-- The fields of `class Watchdog`, with the Qt connections made so far and
the trace. -/
structure Watchdog where
  config : Configuration
  context : Option AutopinContext
  service : Option OSServices
  process : Option ObservedProcess
  strategy : Option ControlStrategy
  monitors : List Monitor
  loggers : List DataLogger
  connections : List Connection
  trace : List Entry

/-- `Watchdog::Watchdog(config)`, lines 30-31: every handle is `nullptr`, the
two lists are empty.  The static `counter` is not touched. -/
def Watchdog.new (config : Configuration) : Watchdog :=
  { config := config, context := none, service := none, process := none, strategy := none,
    monitors := [], loggers := [], connections := [], trace := [] }

/-- The value of `std::atomic_int` arithmetic: two's complement on 32 bits. -/
def wrapInt32 (x : Int) : Int :=
  (x + 2147483648) % 4294967296 - 2147483648

/-- The edge made in `createContext`, line 102. -/
def errorEdge : Connection :=
  { sender := .context, signal := "sig_error()", receiver := .watchdog,
    method := "sig_watchdogStop()" }

/-- `context->isError()`, `false` while there is no context. -/
def Watchdog.inError (w : Watchdog) : Bool :=
  match w.context with
  | some c => c.isError
  | none => false

/-- Append an event to the trace. -/
def Watchdog.emit (e : Event) (w : Watchdog) : Watchdog :=
  { w with trace := w.trace ++ [⟨w.inError, e⟩] }

/-- Modelled from the spec: what a `report` adds to the trace.  The first
error transition of the context fires `sig_error()`, which the edge made in
`createContext` forwards as `sig_watchdogStop()`. -/
def reportEntries (c : AutopinContext) (connections : List Connection) (e : Event) :
    List Entry :=
  ⟨c.isError, e⟩ ::
    (if c.isError = false ∧ errorEdge ∈ connections then [⟨true, Event.sig_watchdogStop⟩]
      else [])

/-- One `report` on the shared context, logged as `ev r`. -/
def Watchdog.record (ev : Report → Event) (r : Report) (w : Watchdog) : Option Watchdog :=
  match w.context with
  | none => none
  | some c =>
    some { w with
      context := some (c.report r)
      trace := w.trace ++ reportEntries c w.connections (ev r) }

/-- `context->report(kind, category, message)` called by the `Watchdog`. -/
def Watchdog.report (kind : Error) (category message : String) (w : Watchdog) :
    Option Watchdog :=
  w.record Event.report ⟨kind, category, message⟩

/-- `context->info(message)`. -/
def Watchdog.info (message : String) (w : Watchdog) : Option Watchdog :=
  match w.context with
  | none => none
  | some _ => some (w.emit (.info message))

/-- A call on a collaborator that holds a reference to the context: the call
is logged, then each error it reports goes through the context. -/
def Watchdog.call (cb : Collaborators) (k : Call) (w : Watchdog) : Option Watchdog :=
  match w.context with
  | none => none
  | some _ => (cb.reports w.trace k).foldlM (fun w r => w.record Event.collabReport r)
      (w.emit (.call k))

/-- `QObject::connect`: the edge is made when neither end is null. -/
def Watchdog.connect (sender : Option Endpoint) (signal : String) (receiver : Option Endpoint)
    (method : String) (w : Watchdog) : Watchdog :=
  match sender, receiver with
  | some s, some r =>
    { w.emit (.connect ⟨s, signal, r, method⟩) with
      connections := w.connections ++ [⟨s, signal, r, method⟩] }
  | _, _ => w

/-! ## The factory steps -/

/-- `Watchdog::createContext`, lines 91-105, on the static `counter`. -/
def createContext (counter : Int) (w : Watchdog) : Int × Watchdog :=
  let name :=
    if w.config.configOptionExists "Name" ≠ 0 then w.config.getConfigOption "Name"
    else "Watchdog " ++ toString counter
  let w := { w with context := some (AutopinContext.new name) }
  let w := w.connect (some .context) "sig_error()" (some .watchdog) "sig_watchdogStop()"
  (wrapInt32 (counter + 1), w)

/-- `Watchdog::createOSServices`, line 211. -/
def createOSServices (cb : Collaborators) (w : Watchdog) : Option Watchdog := do
  let w ← w.call cb .OSServices_new
  pure { w with service := some ⟨⟩ }

/-- The body of the loop of `createPerformanceMonitors`, lines 115-158, for
one entry of the list. -/
def createPerformanceMonitor (cb : Collaborators) (existing_ids : List String)
    (current_monitor : String) (w : Watchdog) : Option Watchdog := do
  let w ←
    (if existing_ids.contains current_monitor then
      w.report .BAD_CONFIG "inconsistent"
        ("The identifier " ++ current_monitor ++ " is already assigned to another monitor")
    else pure w)
  let numtypes := w.config.configOptionExists (current_monitor ++ ".type")
  let w ←
    (if numtypes ≤ 0 then
      w.report .BAD_CONFIG "option_missing"
        ("Type for monitor \"" ++ current_monitor ++ "\" is not specified")
    else if numtypes > 1 then
      w.report .BAD_CONFIG "inconsistent"
        ("Specified " ++ toString numtypes ++ " types for monitor " ++ current_monitor)
    else pure w)
  let current_type := w.config.getConfigOption (current_monitor ++ ".type")
  if current_type = "clustsafe" then
    let w ← w.call cb (.Monitor_new ⟨.ClustSafe, current_monitor⟩)
    pure { w with monitors := w.monitors ++ [⟨.ClustSafe, current_monitor⟩] }
  else if current_type = "gperf" then
    let w ← w.call cb (.Monitor_new ⟨.GPerf, current_monitor⟩)
    pure { w with monitors := w.monitors ++ [⟨.GPerf, current_monitor⟩] }
  else if current_type = "random" then
    let w ← w.call cb (.Monitor_new ⟨.Random, current_monitor⟩)
    pure { w with monitors := w.monitors ++ [⟨.Random, current_monitor⟩] }
  else if current_type = "pagemigrate" then
    let w ← w.call cb (.Monitor_new ⟨.PageMigrate, current_monitor⟩)
    pure { w with monitors := w.monitors ++ [⟨.PageMigrate, current_monitor⟩] }
  else
    w.report .UNSUPPORTED "critical"
      ("Performance monitor type \"" ++ current_type ++ "\" is not supported")

/-- The loop of `createPerformanceMonitors`, lines 114-159.  `existing_ids`
is the local list of line 109; no statement of the loop adds to it. -/
def createPerformanceMonitorsLoop (cb : Collaborators) (existing_ids : List String) :
    List String → Watchdog → Option Watchdog
  | [], w => some w
  | current_monitor :: rest, w => do
    let w ← createPerformanceMonitor cb existing_ids current_monitor w
    createPerformanceMonitorsLoop cb existing_ids rest w

/-- `Watchdog::createPerformanceMonitors`, lines 107-160. -/
def createPerformanceMonitors (cb : Collaborators) (w : Watchdog) : Option Watchdog := do
  let config_monitors := w.config.getConfigOptionList "PerformanceMonitors"
  let existing_ids : List String := []
  let w ←
    (if config_monitors.isEmpty then
      w.report .BAD_CONFIG "option_missing" "No performance monitor configured"
    else pure w)
  createPerformanceMonitorsLoop cb existing_ids config_monitors w

/-- `Watchdog::createObservedProcess`, lines 213-215; `*service` is
dereferenced. -/
def createObservedProcess (cb : Collaborators) (w : Watchdog) : Option Watchdog :=
  match w.service with
  | none => none
  | some _ => do
    let w ← w.call cb .ObservedProcess_new
    pure { w with process := some ⟨⟩ }

/-- The `new Strategy::..::Main(*config, *process, *service, monitors,
*context)` of lines 173-192 followed by the assignment to `strategy`. -/
def Watchdog.newStrategy (cb : Collaborators) (impl : StrategyImpl) (w : Watchdog) :
    Option Watchdog :=
  match w.process, w.service with
  | some _, some _ => do
    let w ← w.call cb (.ControlStrategy_new ⟨impl⟩)
    pure { w with strategy := some ⟨impl⟩ }
  | _, _ => none

/-- `Watchdog::createControlStrategy`, lines 162-197. -/
def createControlStrategy (cb : Collaborators) (w : Watchdog) : Option Watchdog := do
  let optcount := w.config.configOptionExists "ControlStrategy"
  let w ←
    (if optcount ≤ 0 then
      w.report .BAD_CONFIG "option_missing" "No control strategy configured"
    else pure w)
  let w ←
    (if optcount > 1 then
      w.report .BAD_CONFIG "inconsistent"
        ("Specified " ++ toString optcount ++ " control strategies")
    else pure w)
  let strategy_config := w.config.getConfigOption "ControlStrategy"
  if strategy_config = "autopin1" then w.newStrategy cb .Autopin1
  else if strategy_config = "noop" then w.newStrategy cb .Noop
  else if strategy_config = "compact" then w.newStrategy cb .Compact
  else if strategy_config = "scatter" then w.newStrategy cb .Scatter
  else
    w.report .UNSUPPORTED "critical"
      ("Control strategy \"" ++ strategy_config ++ "\" is not supported")

/-- The loop of `createDataLoggers`, lines 200-208: the `return` of line 206
leaves the loop and the function. -/
def createDataLoggersLoop (cb : Collaborators) : List String → Watchdog → Option Watchdog
  | [], w => some w
  | logger :: rest, w =>
    if logger = "external" then do
      let w ← w.call cb (.Logger_new ⟨.External⟩)
      createDataLoggersLoop cb rest { w with loggers := w.loggers ++ [⟨.External⟩] }
    else
      w.report .UNSUPPORTED "critical" ("Data logger \"" ++ logger ++ "\" is not supported")

/-- `Watchdog::createDataLoggers`, lines 199-209. -/
def createDataLoggers (cb : Collaborators) (w : Watchdog) : Option Watchdog :=
  createDataLoggersLoop cb (w.config.getConfigOptionList "DataLoggers") w

/-- `Watchdog::createComponentConnections`, lines 217-238. -/
def createComponentConnections (w : Watchdog) : Watchdog :=
  let service := w.service.map fun _ => Endpoint.service
  let process := w.process.map fun _ => Endpoint.process
  let strategy := w.strategy.map fun _ => Endpoint.strategy
  let w := w.connect (some .signalDispatcher) "sig_ProcTerminated(int, int)"
    process "slot_ProcTerminated(int, int)"
  let w := w.connect service "sig_TaskCreated(int)" process "slot_TaskCreated(int)"
  let w := w.connect service "sig_TaskTerminated(int)" process "slot_TaskTerminated(int)"
  let w := w.connect service "sig_CommChannel(autopin_msg)" process
    "slot_CommChannel(autopin_msg)"
  let w := w.connect process "sig_TaskCreated(int)" strategy "slot_TaskCreated(int)"
  let w := w.connect process "sig_TaskTerminated(int)" strategy "slot_TaskTerminated(int)"
  let w := w.connect process "sig_UserMessage(int, double)" strategy
    "slot_UserMessage(int, double)"
  let w := w.connect process "sig_ProcTerminated()" (some .watchdog) "sig_watchdogStop()"
  w.connect (some .watchdog) "sig_watchdogReady()" strategy "slot_watchdogReady()"

/-! ## The sequencer -/

/-- Where a run of `slot_watchdogRun` ends. -/
inductive Outcome where
  | haltedGate1
  | haltedGate2
  | live
  deriving DecidableEq, Repr

/-- Lines 36-41 of `slot_watchdogRun`: the six factory steps. -/
def construct (cb : Collaborators) (counter : Int) (w : Watchdog) : Option (Int × Watchdog) := do
  let (counter, w) := createContext counter w
  let w ← createOSServices cb w
  let w ← createPerformanceMonitors cb w
  let w ← createObservedProcess cb w
  let w ← createControlStrategy cb w
  let w ← createDataLoggers cb w
  pure (counter, w)

/-- The `context->isError()` of lines 44 and 71, logged as a checkpoint. -/
def Watchdog.isError (gate : Nat) (w : Watchdog) : Option (Bool × Watchdog) :=
  match w.context with
  | none => none
  | some c => some (c.isError, w.emit (.checkpoint gate))

/-- `service->init()`, line 49. -/
def Watchdog.initService (cb : Collaborators) (w : Watchdog) : Option Watchdog :=
  match w.service with
  | none => none
  | some _ => w.call cb .OSServices_init

/-- `process->init()`, line 59. -/
def Watchdog.initProcess (cb : Collaborators) (w : Watchdog) : Option Watchdog :=
  match w.process with
  | none => none
  | some _ => w.call cb .ObservedProcess_init

/-- `strategy->init()`, line 63. -/
def Watchdog.initStrategy (cb : Collaborators) (w : Watchdog) : Option Watchdog :=
  match w.strategy with
  | none => none
  | some s => w.call cb (.ControlStrategy_init s)

/-- Lines 46-69 of `slot_watchdogRun`: the `init()` calls between the two
gates. -/
def initComponents (cb : Collaborators) (w : Watchdog) : Option Watchdog := do
  let w ← w.info "Initializing environment ..."
  let w ← w.initService cb
  let w ← w.info "Initializing performance monitors"
  let w ← w.monitors.foldlM (fun w elem => w.call cb (.Monitor_init elem)) w
  let w ← w.initProcess cb
  let w ← w.info "Initializing control strategy"
  let w ← w.initStrategy cb
  let w ← w.info "Initializing data loggers"
  w.loggers.foldlM (fun w dlogger => w.call cb (.Logger_init dlogger)) w

/-- Lines 74-88 of `slot_watchdogRun`: wiring, process start, second pass over
the monitors, `emit sig_watchdogReady()`. -/
def goLive (cb : Collaborators) (w : Watchdog) : Option Watchdog := do
  let w := createComponentConnections w
  let w ← w.info "Connecting to the observed process ..."
  match w.process with
  | none => none
  | some _ =>
    let w ← w.call cb .ObservedProcess_start
    let w ← w.call cb .ObservedProcess_getPid
    let npid := cb.getPid w.trace
    let w ← w.info "Starting control strategy ..."
    let w ← w.monitors.foldlM (fun w elem => do
      let w ← w.call cb (.Monitor_init elem)
      w.call cb (.Monitor_setObservedProcessPid elem npid)) w
    pure (w.emit .sig_watchdogReady)

/-- `Watchdog::slot_watchdogRun`, lines 35-89. -/
def slot_watchdogRun (cb : Collaborators) (counter : Int) (w : Watchdog) :
    Option (Outcome × Int × Watchdog) := do
  let (counter, w) ← construct cb counter w
  let (err, w) ← w.isError 1
  if err then pure (.haltedGate1, counter, w)
  else
    let w ← initComponents cb w
    let (err, w) ← w.isError 2
    if err then pure (.haltedGate2, counter, w)
    else
      let w ← goLive cb w
      pure (.live, counter, w)

/-! ## Views of the trace and closed forms of the factory steps -/

/-- Whether the event is an error report on the context. -/
def Event.isReport : Event → Bool
  | .report _ => true
  | .collabReport _ => true
  | _ => false

/-- Whether the event is a step of the start-up protocol: a gate, a call on a
collaborator, a connection or the ready signal. -/
def Event.isProtocol : Event → Bool
  | .checkpoint _ => true
  | .call _ => true
  | .connect _ => true
  | .sig_watchdogReady => true
  | _ => false

/-- The error reported by the `Watchdog` itself in this event, if any. -/
def Event.ownReport : Event → Option Report
  | .report r => some r
  | _ => none

/-- Whether an error was reported in this stretch of the trace. -/
def anyReport (evs : List Entry) : Bool :=
  evs.any fun e => e.ev.isReport

/-- The gates, calls, connections and ready signals of a stretch of the
trace. -/
def protocol (evs : List Entry) : List Event :=
  (evs.map Entry.ev).filter Event.isProtocol

/-- The errors reported by the `Watchdog` itself in a stretch of the trace. -/
def ownReports (evs : List Entry) : List Report :=
  evs.filterMap fun e => e.ev.ownReport

/-- The effect of a step on the context: the scope name is kept, the flag is
set exactly when an error was reported, every entry is stamped with a flag
between the one before and the one after, and the step contributed `P` to the
protocol and `O` to the errors reported by the `Watchdog`. -/
structure Eff (c c' : AutopinContext) (evs : List Entry) (P : List Event) (O : List Report) :
    Prop where
  name : c'.name = c.name
  err : c'.isError = (c.isError || anyReport evs)
  prot : protocol evs = P
  own : ownReports evs = O

/-- The `Watchdog` after a step that moved the context to `c'` and appended
`evs` to the trace. -/
def Watchdog.adv (w : Watchdog) (c' : AutopinContext) (evs : List Entry) : Watchdog :=
  { w with context := some c', trace := w.trace ++ evs }

/-- The monitor class selected by a type tag, lines 133-155. -/
def monitorImpl? (tag : String) : Option MonitorImpl :=
  if tag = "clustsafe" then some .ClustSafe
  else if tag = "gperf" then some .GPerf
  else if tag = "random" then some .Random
  else if tag = "pagemigrate" then some .PageMigrate
  else none

/-- The instance the factory makes for an entry of `PerformanceMonitors`, if
its type tag is a recognised one. -/
def monitorFor (config : Configuration) (name : String) : Option Monitor :=
  (monitorImpl? (config.getConfigOption (name ++ ".type"))).map fun impl => ⟨impl, name⟩

/-- The errors `createPerformanceMonitors` reports for one entry, in order:
for a name found in `existing_ids`, for the number of type values, for the
type tag. -/
def monitorEntryReports (config : Configuration) (existing_ids : List String) (name : String) :
    List Report :=
  (if existing_ids.contains name then
    [⟨.BAD_CONFIG, "inconsistent",
      "The identifier " ++ name ++ " is already assigned to another monitor"⟩]
  else []) ++
  (if config.configOptionExists (name ++ ".type") ≤ 0 then
    [⟨.BAD_CONFIG, "option_missing", "Type for monitor \"" ++ name ++ "\" is not specified"⟩]
  else if config.configOptionExists (name ++ ".type") > 1 then
    [⟨.BAD_CONFIG, "inconsistent",
      "Specified " ++ toString (config.configOptionExists (name ++ ".type")) ++
        " types for monitor " ++ name⟩]
  else []) ++
  (if (monitorFor config name).isNone then
    [⟨.UNSUPPORTED, "critical",
      "Performance monitor type \"" ++ config.getConfigOption (name ++ ".type") ++
        "\" is not supported"⟩]
  else [])

/-- The monitor set `createPerformanceMonitors` builds from a list of names. -/
def monitorsFor (config : Configuration) (names : List String) : List Monitor :=
  names.filterMap (monitorFor config)

/-- The errors `createPerformanceMonitors` itself reports for a list of names
in its loop. -/
def monitorListReports (config : Configuration) (existing_ids names : List String) :
    List Report :=
  (names.map (monitorEntryReports config existing_ids)).flatten

/-- The errors `createPerformanceMonitors` itself reports, in order. -/
def monitorReports (config : Configuration) : List Report :=
  (if (config.getConfigOptionList "PerformanceMonitors").isEmpty then
    [⟨.BAD_CONFIG, "option_missing", "No performance monitor configured"⟩]
  else []) ++
  monitorListReports config [] (config.getConfigOptionList "PerformanceMonitors")

/-- The strategy class selected by a tag, lines 172-194. -/
def strategyImpl? (tag : String) : Option StrategyImpl :=
  if tag = "autopin1" then some .Autopin1
  else if tag = "noop" then some .Noop
  else if tag = "compact" then some .Compact
  else if tag = "scatter" then some .Scatter
  else none

/-- The strategy the factory makes, if the `ControlStrategy` tag is a
recognised one. -/
def strategyFor (config : Configuration) : Option ControlStrategy :=
  (strategyImpl? (config.getConfigOption "ControlStrategy")).map fun impl => ⟨impl⟩

/-- The errors `createControlStrategy` itself reports, in order. -/
def strategyReports (config : Configuration) : List Report :=
  (if config.configOptionExists "ControlStrategy" ≤ 0 then
    [⟨.BAD_CONFIG, "option_missing", "No control strategy configured"⟩]
  else []) ++
  (if config.configOptionExists "ControlStrategy" > 1 then
    [⟨.BAD_CONFIG, "inconsistent",
      "Specified " ++ toString (config.configOptionExists "ControlStrategy") ++
        " control strategies"⟩]
  else []) ++
  (if (strategyFor config).isNone then
    [⟨.UNSUPPORTED, "critical",
      "Control strategy \"" ++ config.getConfigOption "ControlStrategy" ++
        "\" is not supported"⟩]
  else [])

/-- The loggers `createDataLoggers` builds from a list of tags: one for each
entry before the first that is not `external`. -/
def loggersFor (tags : List String) : List DataLogger :=
  (tags.takeWhile fun t => t = "external").map fun _ => ⟨.External⟩

/-- The errors `createDataLoggers` itself reports for a list of tags: one for
the first entry that is not `external`, if there is one. -/
def loggerReports (tags : List String) : List Report :=
  ((tags.find? fun t => t ≠ "external").map fun t =>
    (⟨.UNSUPPORTED, "critical", "Data logger \"" ++ t ++ "\" is not supported"⟩ : Report)).toList

/-- The scope name `createContext` gives the context, lines 94-98. -/
def contextName (config : Configuration) (counter : Int) : String :=
  if config.configOptionExists "Name" ≠ 0 then config.getConfigOption "Name"
  else "Watchdog " ++ toString counter

/-- The constructor calls of the six factory steps, in order. -/
def constructCalls (config : Configuration) : List Event :=
  [.call .OSServices_new] ++
  (monitorsFor config (config.getConfigOptionList "PerformanceMonitors")).map
    (fun m => .call (.Monitor_new m)) ++
  [.call .ObservedProcess_new] ++
  (strategyFor config).toList.map (fun s => .call (.ControlStrategy_new s)) ++
  (loggersFor (config.getConfigOptionList "DataLoggers")).map (fun l => .call (.Logger_new l))

/-- The errors the factory steps themselves report, in order. -/
def constructReports (config : Configuration) : List Report :=
  monitorReports config ++ strategyReports config ++
    loggerReports (config.getConfigOptionList "DataLoggers")

/-- The nine edges of `createComponentConnections`, in the order they are
made. -/
def topology : List Connection :=
  [⟨.signalDispatcher, "sig_ProcTerminated(int, int)", .process, "slot_ProcTerminated(int, int)"⟩,
   ⟨.service, "sig_TaskCreated(int)", .process, "slot_TaskCreated(int)"⟩,
   ⟨.service, "sig_TaskTerminated(int)", .process, "slot_TaskTerminated(int)"⟩,
   ⟨.service, "sig_CommChannel(autopin_msg)", .process, "slot_CommChannel(autopin_msg)"⟩,
   ⟨.process, "sig_TaskCreated(int)", .strategy, "slot_TaskCreated(int)"⟩,
   ⟨.process, "sig_TaskTerminated(int)", .strategy, "slot_TaskTerminated(int)"⟩,
   ⟨.process, "sig_UserMessage(int, double)", .strategy, "slot_UserMessage(int, double)"⟩,
   ⟨.process, "sig_ProcTerminated()", .watchdog, "sig_watchdogStop()"⟩,
   ⟨.watchdog, "sig_watchdogReady()", .strategy, "slot_watchdogReady()"⟩]

/-- The `init()` calls between the two gates, in order. -/
def initCalls (w : Watchdog) (s : ControlStrategy) : List Event :=
  [.call .OSServices_init] ++ w.monitors.map (fun m => .call (.Monitor_init m)) ++
  [.call .ObservedProcess_init, .call (.ControlStrategy_init s)] ++
  w.loggers.map (fun l => .call (.Logger_init l))

/-- The calls after the second gate, in order, for the pid `getPid()`
returned. -/
def liveCalls (w : Watchdog) (pid : Int) : List Event :=
  topology.map (fun k => .connect k) ++
  [.call .ObservedProcess_start, .call .ObservedProcess_getPid] ++
  (w.monitors.map fun m =>
    [Event.call (.Monitor_init m), .call (.Monitor_setObservedProcessPid m pid)]).flatten ++
  [.sig_watchdogReady]

/-- The `Watchdog` a fresh one becomes through the six factory steps, given
the context `c` they leave and the entries `evs` they add after the one for
the edge of `createContext`. -/
def built (config : Configuration) (c : AutopinContext) (evs : List Entry) : Watchdog :=
  { config := config
    context := some c
    service := some ⟨⟩
    process := some ⟨⟩
    strategy := strategyFor config
    monitors := monitorsFor config (config.getConfigOptionList "PerformanceMonitors")
    loggers := loggersFor (config.getConfigOptionList "DataLoggers")
    connections := [errorEdge]
    trace := ⟨false, .connect errorEdge⟩ :: evs }

/-- The three ways a run of `slot_watchdogRun` on a fresh `Watchdog` can end,
with the `Watchdog` it leaves. -/
inductive RunShape (cb : Collaborators) (config : Configuration) (counter : Int) :
    Outcome → Watchdog → Prop
  | gate1 (c : AutopinContext) (evs : List Entry)
      (hb : construct cb counter (Watchdog.new config) =
        some (wrapInt32 (counter + 1), built config c evs))
      (h0 : Eff (AutopinContext.new (contextName config counter)) c evs
        (constructCalls config) (constructReports config))
      (herr : c.isError = true) :
      RunShape cb config counter .haltedGate1 ((built config c evs).adv c [⟨true, .checkpoint 1⟩])
  | gate2 (c : AutopinContext) (evs : List Entry) (st : ControlStrategy) (c1 : AutopinContext)
      (evs1 : List Entry)
      (hb : construct cb counter (Watchdog.new config) =
        some (wrapInt32 (counter + 1), built config c evs))
      (h0 : Eff (AutopinContext.new (contextName config counter)) c evs
        (constructCalls config) (constructReports config))
      (hok : c.isError = false) (hst : strategyFor config = some st)
      (h1 : Eff c c1 evs1 (initCalls (built config c evs) st) [])
      (herr : c1.isError = true) :
      RunShape cb config counter .haltedGate2
        ((built config c evs).adv c1 (⟨false, .checkpoint 1⟩ :: evs1 ++ [⟨true, .checkpoint 2⟩]))
  | live (c : AutopinContext) (evs : List Entry) (st : ControlStrategy) (c1 : AutopinContext)
      (evs1 : List Entry) (cm : AutopinContext) (mid : List Entry) (c2 : AutopinContext)
      (tail : List Entry) (pid : Int)
      (hb : construct cb counter (Watchdog.new config) =
        some (wrapInt32 (counter + 1), built config c evs))
      (h0 : Eff (AutopinContext.new (contextName config counter)) c evs
        (constructCalls config) (constructReports config))
      (hok : c.isError = false) (hst : strategyFor config = some st)
      (h1 : Eff c c1 evs1 (initCalls (built config c evs) st) [])
      (hok1 : c1.isError = false)
      (h2 : Eff c1 cm (⟨false, .call .ObservedProcess_start⟩ :: mid)
        [.call .ObservedProcess_start, .call .ObservedProcess_getPid] [])
      (hpid : pid = cb.getPid ((built config c evs).trace ++ (⟨false, .checkpoint 1⟩ :: evs1 ++
        ⟨false, .checkpoint 2⟩ :: ((topology.map fun k => ⟨false, .connect k⟩) ++
          ⟨false, .info "Connecting to the observed process ..."⟩ ::
          ⟨false, .call .ObservedProcess_start⟩ :: mid))))
      (h3 : Eff cm c2 tail
        (((built config c evs).monitors.map fun m =>
            [Event.call (.Monitor_init m),
              .call (.Monitor_setObservedProcessPid m pid)]).flatten ++
          [.sig_watchdogReady]) []) :
      RunShape cb config counter .live
        { (built config c evs).adv c2 (⟨false, .checkpoint 1⟩ :: evs1 ++
            ⟨false, .checkpoint 2⟩ :: ((topology.map fun k => ⟨false, .connect k⟩) ++
              ⟨false, .info "Connecting to the observed process ..."⟩ ::
              ⟨false, .call .ObservedProcess_start⟩ :: (mid ++ tail))) with
          connections := [errorEdge] ++ topology }

/-- Whether the call is one of the constructors of the factory steps. -/
def Call.isNew : Call → Bool
  | .OSServices_new => true
  | .Monitor_new _ => true
  | .ObservedProcess_new => true
  | .ControlStrategy_new _ => true
  | .Logger_new _ => true
  | _ => false

/-- The protocol of a whole run on a fresh `Watchdog`, by the way it ends. -/
def runProtocol (config : Configuration) (w : Watchdog) (st : ControlStrategy) (pid : Int) :
    Outcome → List Event
  | .haltedGate1 => .connect errorEdge :: constructCalls config ++ [.checkpoint 1]
  | .haltedGate2 =>
    .connect errorEdge :: constructCalls config ++ .checkpoint 1 :: initCalls w st ++
      [.checkpoint 2]
  | .live =>
    .connect errorEdge :: constructCalls config ++ .checkpoint 1 :: initCalls w st ++
      .checkpoint 2 :: liveCalls w pid

/-! ## Concrete configurations and collaborators -/

/-- Collaborators that never report an error; the process has pid 4242. -/
def quiet : Collaborators :=
  { reports := fun _ _ => [], getPid := fun _ => 4242 }

/-- Scenario B of the specification. -/
def scenarioB : Configuration :=
  { configOptionExists := fun k =>
      if k = "m1.type" then 1 else if k = "ControlStrategy" then 1
      else if k = "PerformanceMonitors" then 1 else 0
    getConfigOption := fun k =>
      if k = "m1.type" then "random" else if k = "ControlStrategy" then "noop" else ""
    getConfigOptionList := fun k => if k = "PerformanceMonitors" then ["m1"] else [] }

/-- Scenario A of the specification: no monitor configured. -/
def scenarioA : Configuration :=
  { configOptionExists := fun k => if k = "ControlStrategy" then 1 else 0
    getConfigOption := fun k => if k = "ControlStrategy" then "noop" else ""
    getConfigOptionList := fun _ => [] }

/-- Scenario C of the specification: scenario B with an unknown strategy tag. -/
def scenarioC : Configuration :=
  { scenarioB with
    getConfigOption := fun k =>
      if k = "m1.type" then "random" else if k = "ControlStrategy" then "unknown" else "" }

/-- Scenario D of the specification: two monitors, both named `m1`. -/
def scenarioD : Configuration :=
  { scenarioB with
    getConfigOptionList := fun k => if k = "PerformanceMonitors" then ["m1", "m1"] else [] }

/-- Scenario B with two type values for `m1`. -/
def twoTypes : Configuration :=
  { scenarioB with
    configOptionExists := fun k =>
      if k = "m1.type" then 2 else if k = "ControlStrategy" then 1
      else if k = "PerformanceMonitors" then 1 else 0 }

/-- A `Watchdog` whose context exists: a fresh one after `createContext`. -/
def withContext (config : Configuration) : Watchdog :=
  (createContext 0 (Watchdog.new config)).2

/-- The `Watchdog` the factory steps leave in scenario B. -/
def scenarioBBuilt : Watchdog :=
  ((construct quiet 0 (Watchdog.new scenarioB)).map fun r => r.2).getD (Watchdog.new scenarioB)

/-- Scenario B with three data loggers, the second of an unknown kind. -/
def mixedLoggers : Configuration :=
  { scenarioB with
    getConfigOptionList := fun k =>
      if k = "PerformanceMonitors" then ["m1"]
      else if k = "DataLoggers" then ["external", "csv", "external"] else [] }

/-- Whether the event is a call on a collaborator: a constructor or method
call, a connection, or the ready signal. -/
def Event.isCollaboratorCall : Event → Bool
  | .call _ => true
  | .connect _ => true
  | .sig_watchdogReady => true
  | _ => false

/-- The calls on collaborators in a stretch of the trace, in order. -/
def collaboratorCalls (evs : List Entry) : List Event :=
  (evs.map Entry.ev).filter Event.isCollaboratorCall

/-- The `Watchdog` a run leaves in scenario B. -/
def scenarioBLive : Watchdog :=
  ((slot_watchdogRun quiet 0 (Watchdog.new scenarioB)).map fun r => r.2.2).getD
    (Watchdog.new scenarioB)

/-- Collaborators of which only `process->start()` reports an error. -/
def startFails : Collaborators :=
  { reports := fun _ k =>
      if k = .ObservedProcess_start then
        [⟨.RUNTIME 1, "critical", "Could not attach to the observed process"⟩]
      else []
    getPid := fun _ => 4242 }

/-- The `Watchdog` a run leaves in scenario B when `process->start()` reports
an error. -/
def startFailsLive : Watchdog :=
  ((slot_watchdogRun startFails 0 (Watchdog.new scenarioB)).map fun r => r.2.2).getD
    (Watchdog.new scenarioB)

/-- The `Watchdog` a run leaves in scenario A. -/
def scenarioAHalted : Watchdog :=
  ((slot_watchdogRun quiet 0 (Watchdog.new scenarioA)).map fun r => r.2.2).getD
    (Watchdog.new scenarioA)

/-- The `Watchdog` a run leaves in scenario D. -/
def scenarioDLive : Watchdog :=
  ((slot_watchdogRun quiet 0 (Watchdog.new scenarioD)).map fun r => r.2.2).getD
    (Watchdog.new scenarioD)

/-- The number a list of decimal digits stands for. -/
def decodeDigits (cs : List Char) : Nat :=
  cs.foldl (fun acc c => 10 * acc + (c.toNat - 48)) 0

/-- The integer a decimal numeral with an optional leading minus stands for. -/
def decodeInt : List Char → Int
  | [] => 0
  | c :: rest => if c = '-' then -(decodeDigits rest : Int) else (decodeDigits (c :: rest) : Int)

/-- The scope name of the context of a `Watchdog`, empty while it has none. -/
def Watchdog.scopeName (w : Watchdog) : String :=
  match w.context with
  | some c => c.name
  | none => ""

/-- A sequential series of orchestrators in one process: each is constructed
from its configuration and run by `slot_watchdogRun`, one after the other, on
the static `counter`.  The result lists, for each, the value the counter had
when its run began and the `Watchdog` the run left; a run that dereferences a
null handle ends the series. -/
def runSeries (cb : Collaborators) : Int → List Configuration → List (Int × Watchdog)
  | _, [] => []
  | counter, config :: rest =>
    match slot_watchdogRun cb counter (Watchdog.new config) with
    | some (_, counter', w) => (counter, w) :: runSeries cb counter' rest
    | none => []

/-! ## The effect of each step -/

@[simp] theorem anyReport_nil : anyReport [] = false := rfl
@[simp] theorem protocol_nil : protocol [] = [] := rfl
@[simp] theorem ownReports_nil : ownReports [] = [] := rfl

@[simp] theorem anyReport_append (a b : List Entry) :
    anyReport (a ++ b) = (anyReport a || anyReport b) := by
  simp [anyReport]

@[simp] theorem protocol_append (a b : List Entry) :
    protocol (a ++ b) = protocol a ++ protocol b := by
  simp [protocol]

@[simp] theorem ownReports_append (a b : List Entry) :
    ownReports (a ++ b) = ownReports a ++ ownReports b := by
  simp [ownReports]

@[simp] theorem anyReport_cons (e : Entry) (b : List Entry) :
    anyReport (e :: b) = (e.ev.isReport || anyReport b) := by
  simp [anyReport]

@[simp] theorem protocol_cons (e : Entry) (b : List Entry) :
    protocol (e :: b) = if e.ev.isProtocol then e.ev :: protocol b else protocol b := by
  simp only [protocol, List.map_cons, List.filter_cons]

@[simp] theorem ownReports_cons (e : Entry) (b : List Entry) :
    ownReports (e :: b) = (match e.ev.ownReport with
      | some r => r :: ownReports b
      | none => ownReports b) := by
  simp only [ownReports, List.filterMap_cons]
  cases e.ev.ownReport <;> rfl

theorem Eff.refl (c : AutopinContext) : Eff c c [] [] [] :=
  ⟨rfl, by simp, rfl, rfl⟩

theorem Eff.append {c c1 c2 : AutopinContext} {e1 e2 : List Entry} {P1 P2 : List Event}
    {O1 O2 : List Report} (h1 : Eff c c1 e1 P1 O1) (h2 : Eff c1 c2 e2 P2 O2) :
    Eff c c2 (e1 ++ e2) (P1 ++ P2) (O1 ++ O2) :=
  ⟨h2.name.trans h1.name, by simp [h2.err, h1.err, Bool.or_assoc],
    by simp [h1.prot, h2.prot], by simp [h1.own, h2.own]⟩

theorem reportEntries_own (c : AutopinContext) (conns : List Connection) (r : Report) :
    Eff c (c.report r) (reportEntries c conns (.report r)) [] [r] := by
  refine ⟨rfl, ?_, ?_, ?_⟩ <;> unfold reportEntries <;> split_ifs <;>
    simp [AutopinContext.report, Event.isReport, Event.isProtocol, Event.ownReport]

theorem reportEntries_collab (c : AutopinContext) (conns : List Connection) (r : Report) :
    Eff c (c.report r) (reportEntries c conns (.collabReport r)) [] [] := by
  refine ⟨rfl, ?_, ?_, ?_⟩ <;> unfold reportEntries <;> split_ifs <;>
    simp [AutopinContext.report, Event.isReport, Event.isProtocol, Event.ownReport]

@[simp] theorem adv_config (w : Watchdog) (c : AutopinContext) (e : List Entry) :
    (w.adv c e).config = w.config := rfl
@[simp] theorem adv_context (w : Watchdog) (c : AutopinContext) (e : List Entry) :
    (w.adv c e).context = some c := rfl
@[simp] theorem adv_service (w : Watchdog) (c : AutopinContext) (e : List Entry) :
    (w.adv c e).service = w.service := rfl
@[simp] theorem adv_process (w : Watchdog) (c : AutopinContext) (e : List Entry) :
    (w.adv c e).process = w.process := rfl
@[simp] theorem adv_strategy (w : Watchdog) (c : AutopinContext) (e : List Entry) :
    (w.adv c e).strategy = w.strategy := rfl
@[simp] theorem adv_monitors (w : Watchdog) (c : AutopinContext) (e : List Entry) :
    (w.adv c e).monitors = w.monitors := rfl
@[simp] theorem adv_loggers (w : Watchdog) (c : AutopinContext) (e : List Entry) :
    (w.adv c e).loggers = w.loggers := rfl
@[simp] theorem adv_connections (w : Watchdog) (c : AutopinContext) (e : List Entry) :
    (w.adv c e).connections = w.connections := rfl
@[simp] theorem adv_trace (w : Watchdog) (c : AutopinContext) (e : List Entry) :
    (w.adv c e).trace = w.trace ++ e := rfl

@[simp] theorem adv_adv (w : Watchdog) (c1 c2 : AutopinContext) (e1 e2 : List Entry) :
    (w.adv c1 e1).adv c2 e2 = w.adv c2 (e1 ++ e2) := by
  simp [Watchdog.adv]

theorem adv_nil {w : Watchdog} {c : AutopinContext} (hc : w.context = some c) :
    w.adv c [] = w := by
  simp [Watchdog.adv, ← hc]

theorem record_eq {w : Watchdog} {c : AutopinContext} (hc : w.context = some c)
    (ev : Report → Event) (r : Report) :
    w.record ev r = some (w.adv (c.report r) (reportEntries c w.connections (ev r))) := by
  simp only [Watchdog.record, hc, Watchdog.adv]

theorem report_eff {w : Watchdog} {c : AutopinContext} (hc : w.context = some c)
    (kind : Error) (category message : String) :
    ∃ c' evs, w.report kind category message = some (w.adv c' evs) ∧
      Eff c c' evs [] [⟨kind, category, message⟩] :=
  ⟨c.report ⟨kind, category, message⟩, _, record_eq hc _ _, reportEntries_own c _ _⟩

theorem collab_fold_eff (rs : List Report) :
    ∀ (w : Watchdog) (c : AutopinContext), w.context = some c →
    ∃ c' evs, rs.foldlM (fun w r => w.record Event.collabReport r) w = some (w.adv c' evs) ∧
      Eff c c' evs [] [] := by
  induction rs with
  | nil =>
    intro w c hc
    exact ⟨c, [], by simp [adv_nil hc], Eff.refl c⟩
  | cons r rs ih =>
    intro w c hc
    obtain ⟨c', evs, h, he⟩ := ih (w.adv (c.report r)
      (reportEntries c w.connections (.collabReport r))) (c.report r) rfl
    refine ⟨c', reportEntries c w.connections (.collabReport r) ++ evs, ?_,
      Eff.append (reportEntries_collab c _ r) he⟩
    simp [List.foldlM_cons, record_eq hc, h]

theorem call_eff (cb : Collaborators) (k : Call) {w : Watchdog} {c : AutopinContext}
    (hc : w.context = some c) :
    ∃ c' rest, w.call cb k = some (w.adv c' (⟨c.isError, .call k⟩ :: rest)) ∧
      Eff c c' (⟨c.isError, .call k⟩ :: rest) [.call k] [] := by
  have hemit : w.emit (.call k) = w.adv c [⟨c.isError, .call k⟩] := by
    simp [Watchdog.emit, Watchdog.adv, Watchdog.inError, hc]
  obtain ⟨c', evs, h, he⟩ := collab_fold_eff (cb.reports w.trace k)
    (w.adv c [⟨c.isError, .call k⟩]) c rfl
  refine ⟨c', evs, ?_, ?_⟩
  · simp [Watchdog.call, hc, hemit, h]
  · have hcall : Eff c c [⟨c.isError, .call k⟩] [.call k] [] :=
      ⟨rfl, by simp [Event.isReport], by simp [Event.isProtocol], by simp [Event.ownReport]⟩
    simpa using hcall.append he

theorem info_eff (msg : String) {w : Watchdog} {c : AutopinContext} (hc : w.context = some c) :
    w.info msg = some (w.adv c [⟨c.isError, .info msg⟩]) ∧
      Eff c c [⟨c.isError, .info msg⟩] [] [] := by
  refine ⟨by simp [Watchdog.info, hc, Watchdog.emit, Watchdog.inError, Watchdog.adv],
    rfl, ?_, ?_, ?_⟩
  · simp [Event.isReport]
  · simp [Event.isProtocol]
  · simp [Event.ownReport]

theorem report_if_eff (b : Prop) [Decidable b] {w : Watchdog} {c : AutopinContext}
    (hc : w.context = some c) (kind : Error) (category message : String) :
    ∃ c' evs, (if b then w.report kind category message else pure w) = some (w.adv c' evs) ∧
      Eff c c' evs [] (if b then [⟨kind, category, message⟩] else []) := by
  by_cases hb : b
  · simpa [hb] using report_eff hc kind category message
  · exact ⟨c, [], by simp [hb, adv_nil hc], by simpa [hb] using Eff.refl c⟩

theorem newMonitor_eff (cb : Collaborators) (m : Monitor) {w : Watchdog} {c : AutopinContext}
    (hc : w.context = some c) :
    ∃ c' evs, (do
        let w ← w.call cb (.Monitor_new m)
        pure { w with monitors := w.monitors ++ [m] }) =
        some { w.adv c' evs with monitors := w.monitors ++ [m] } ∧
      Eff c c' evs [.call (.Monitor_new m)] [] := by
  obtain ⟨c', rest, h, he⟩ := call_eff cb (.Monitor_new m) hc
  exact ⟨c', _, by simp [h], he⟩

theorem createPerformanceMonitor_eff (cb : Collaborators) (ids : List String) (name : String)
    {w : Watchdog} {c : AutopinContext} (hc : w.context = some c) :
    ∃ c' evs, createPerformanceMonitor cb ids name w =
        some { w.adv c' evs with
          monitors := w.monitors ++ (monitorFor w.config name).toList } ∧
      Eff c c' evs ((monitorFor w.config name).toList.map fun m => .call (.Monitor_new m))
        (monitorEntryReports w.config ids name) := by
  obtain ⟨c1, e1, h1, f1⟩ := report_if_eff (ids.contains name = true) hc .BAD_CONFIG
    "inconsistent" ("The identifier " ++ name ++ " is already assigned to another monitor")
  obtain ⟨c2, e2, h2, f2⟩ : ∃ c2 e2,
      (if w.config.configOptionExists (name ++ ".type") ≤ 0 then
        (w.adv c1 e1).report .BAD_CONFIG "option_missing"
          ("Type for monitor \"" ++ name ++ "\" is not specified")
      else if w.config.configOptionExists (name ++ ".type") > 1 then
        (w.adv c1 e1).report .BAD_CONFIG "inconsistent"
          ("Specified " ++ toString (w.config.configOptionExists (name ++ ".type")) ++
            " types for monitor " ++ name)
      else pure (w.adv c1 e1)) = some (w.adv c2 (e1 ++ e2)) ∧
      Eff c1 c2 e2 []
        (if w.config.configOptionExists (name ++ ".type") ≤ 0 then
          [⟨.BAD_CONFIG, "option_missing", "Type for monitor \"" ++ name ++ "\" is not specified"⟩]
        else if w.config.configOptionExists (name ++ ".type") > 1 then
          [⟨.BAD_CONFIG, "inconsistent",
            "Specified " ++ toString (w.config.configOptionExists (name ++ ".type")) ++
              " types for monitor " ++ name⟩]
        else []) := by
    by_cases hle : w.config.configOptionExists (name ++ ".type") ≤ 0
    · simpa [hle] using report_eff (w := w.adv c1 e1) rfl .BAD_CONFIG "option_missing"
        ("Type for monitor \"" ++ name ++ "\" is not specified")
    · simpa [hle] using report_if_eff (w.config.configOptionExists (name ++ ".type") > 1)
        (w := w.adv c1 e1) rfl .BAD_CONFIG "inconsistent"
          ("Specified " ++ toString (w.config.configOptionExists (name ++ ".type")) ++
            " types for monitor " ++ name)
  obtain ⟨c3, e3, h3, f3⟩ : ∃ c3 e3,
      (if w.config.getConfigOption (name ++ ".type") = "clustsafe" then do
        let w ← (w.adv c2 (e1 ++ e2)).call cb (.Monitor_new ⟨.ClustSafe, name⟩)
        pure { w with monitors := w.monitors ++ [⟨.ClustSafe, name⟩] }
      else if w.config.getConfigOption (name ++ ".type") = "gperf" then do
        let w ← (w.adv c2 (e1 ++ e2)).call cb (.Monitor_new ⟨.GPerf, name⟩)
        pure { w with monitors := w.monitors ++ [⟨.GPerf, name⟩] }
      else if w.config.getConfigOption (name ++ ".type") = "random" then do
        let w ← (w.adv c2 (e1 ++ e2)).call cb (.Monitor_new ⟨.Random, name⟩)
        pure { w with monitors := w.monitors ++ [⟨.Random, name⟩] }
      else if w.config.getConfigOption (name ++ ".type") = "pagemigrate" then do
        let w ← (w.adv c2 (e1 ++ e2)).call cb (.Monitor_new ⟨.PageMigrate, name⟩)
        pure { w with monitors := w.monitors ++ [⟨.PageMigrate, name⟩] }
      else
        (w.adv c2 (e1 ++ e2)).report .UNSUPPORTED "critical"
          ("Performance monitor type \"" ++ w.config.getConfigOption (name ++ ".type") ++
            "\" is not supported")) =
        some { w.adv c3 (e1 ++ e2 ++ e3) with
          monitors := w.monitors ++ (monitorFor w.config name).toList } ∧
      Eff c2 c3 e3 ((monitorFor w.config name).toList.map fun m => .call (.Monitor_new m))
        (if (monitorFor w.config name).isNone then
          [⟨.UNSUPPORTED, "critical",
            "Performance monitor type \"" ++ w.config.getConfigOption (name ++ ".type") ++
              "\" is not supported"⟩]
        else []) := by
    by_cases t1 : w.config.getConfigOption (name ++ ".type") = "clustsafe"
    · simpa [t1, monitorFor, monitorImpl?] using
        newMonitor_eff cb ⟨.ClustSafe, name⟩ (w := w.adv c2 (e1 ++ e2)) rfl
    by_cases t2 : w.config.getConfigOption (name ++ ".type") = "gperf"
    · simpa [t1, t2, monitorFor, monitorImpl?] using
        newMonitor_eff cb ⟨.GPerf, name⟩ (w := w.adv c2 (e1 ++ e2)) rfl
    by_cases t3 : w.config.getConfigOption (name ++ ".type") = "random"
    · simpa [t1, t2, t3, monitorFor, monitorImpl?] using
        newMonitor_eff cb ⟨.Random, name⟩ (w := w.adv c2 (e1 ++ e2)) rfl
    by_cases t4 : w.config.getConfigOption (name ++ ".type") = "pagemigrate"
    · simpa [t1, t2, t3, t4, monitorFor, monitorImpl?] using
        newMonitor_eff cb ⟨.PageMigrate, name⟩ (w := w.adv c2 (e1 ++ e2)) rfl
    · obtain ⟨c3, e3, h3, f3⟩ := report_eff (w := w.adv c2 (e1 ++ e2)) rfl .UNSUPPORTED
        "critical" ("Performance monitor type \"" ++ w.config.getConfigOption (name ++ ".type") ++
            "\" is not supported")
      refine ⟨c3, e3, ?_, ?_⟩
      · simp only [t1, t2, t3, t4, ↓reduceIte, h3]
        simp [t1, t2, t3, t4, monitorFor, monitorImpl?, Watchdog.adv]
      · simpa [t1, t2, t3, t4, monitorFor, monitorImpl?] using f3
  refine ⟨c3, e1 ++ e2 ++ e3, ?_, ?_⟩
  · simp only [createPerformanceMonitor, h1, Option.bind_eq_bind, Option.some_bind, adv_config,
      h2]
    simpa only [Option.bind_eq_bind, adv_config] using h3
  · have := (f1.append f2).append f3
    simpa [monitorEntryReports] using this

theorem createPerformanceMonitorsLoop_eff (cb : Collaborators) (ids : List String)
    (names : List String) :
    ∀ (w : Watchdog) (c : AutopinContext), w.context = some c →
    ∃ c' evs, createPerformanceMonitorsLoop cb ids names w =
        some { w.adv c' evs with monitors := w.monitors ++ monitorsFor w.config names } ∧
      Eff c c' evs ((monitorsFor w.config names).map fun m => .call (.Monitor_new m))
        (monitorListReports w.config ids names) := by
  induction names with
  | nil =>
    intro w c hc
    exact ⟨c, [], by simp [createPerformanceMonitorsLoop, monitorsFor, adv_nil hc],
      by simpa [monitorsFor, monitorListReports] using Eff.refl c⟩
  | cons name rest ih =>
    intro w c hc
    obtain ⟨c1, e1, h1, f1⟩ := createPerformanceMonitor_eff cb ids name hc
    obtain ⟨c2, e2, h2, f2⟩ := ih { w.adv c1 e1 with
      monitors := w.monitors ++ (monitorFor w.config name).toList } c1 rfl
    refine ⟨c2, e1 ++ e2, ?_, ?_⟩
    · simp only [createPerformanceMonitorsLoop, h1, Option.bind_eq_bind, Option.some_bind, h2]
      cases hm : monitorFor w.config name <;>
        simp [monitorsFor, hm, Watchdog.adv]
    · have := f1.append f2
      cases hm : monitorFor w.config name <;>
        simpa [monitorsFor, monitorListReports, hm] using this

theorem createPerformanceMonitors_eff (cb : Collaborators) {w : Watchdog} {c : AutopinContext}
    (hc : w.context = some c) :
    ∃ c' evs, createPerformanceMonitors cb w =
        some { w.adv c' evs with
          monitors := w.monitors ++
            monitorsFor w.config (w.config.getConfigOptionList "PerformanceMonitors") } ∧
      Eff c c' evs
        ((monitorsFor w.config (w.config.getConfigOptionList "PerformanceMonitors")).map
          fun m => .call (.Monitor_new m))
        (monitorReports w.config) := by
  obtain ⟨c1, e1, h1, f1⟩ := report_if_eff
    ((w.config.getConfigOptionList "PerformanceMonitors").isEmpty = true) hc .BAD_CONFIG
    "option_missing" "No performance monitor configured"
  obtain ⟨c2, e2, h2, f2⟩ := createPerformanceMonitorsLoop_eff cb []
    (w.config.getConfigOptionList "PerformanceMonitors") (w.adv c1 e1) c1 rfl
  refine ⟨c2, e1 ++ e2, ?_, ?_⟩
  · simp only [createPerformanceMonitors, h1, Option.bind_eq_bind, Option.some_bind, adv_config,
      h2]
    simp [Watchdog.adv]
  · have := f1.append f2
    simpa [monitorReports] using this

theorem createOSServices_eff (cb : Collaborators) {w : Watchdog} {c : AutopinContext}
    (hc : w.context = some c) :
    ∃ c' evs, createOSServices cb w = some { w.adv c' evs with service := some ⟨⟩ } ∧
      Eff c c' evs [.call .OSServices_new] [] := by
  obtain ⟨c1, e1, h1, f1⟩ := call_eff cb .OSServices_new hc
  exact ⟨c1, _, by simp [createOSServices, h1], f1⟩

theorem createObservedProcess_eff (cb : Collaborators) {w : Watchdog} {c : AutopinContext}
    (hc : w.context = some c) {s : OSServices} (hs : w.service = some s) :
    ∃ c' evs, createObservedProcess cb w = some { w.adv c' evs with process := some ⟨⟩ } ∧
      Eff c c' evs [.call .ObservedProcess_new] [] := by
  obtain ⟨c1, e1, h1, f1⟩ := call_eff cb .ObservedProcess_new hc
  exact ⟨c1, _, by simp [createObservedProcess, hs, h1], f1⟩

theorem newStrategy_eff (cb : Collaborators) (impl : StrategyImpl) {w : Watchdog}
    {c : AutopinContext} (hc : w.context = some c) {s : OSServices} (hs : w.service = some s)
    {p : ObservedProcess} (hp : w.process = some p) :
    ∃ c' evs, w.newStrategy cb impl = some { w.adv c' evs with strategy := some ⟨impl⟩ } ∧
      Eff c c' evs [.call (.ControlStrategy_new ⟨impl⟩)] [] := by
  obtain ⟨c1, e1, h1, f1⟩ := call_eff cb (.ControlStrategy_new ⟨impl⟩) hc
  exact ⟨c1, _, by simp [Watchdog.newStrategy, hs, hp, h1], f1⟩

theorem createControlStrategy_eff (cb : Collaborators) {w : Watchdog} {c : AutopinContext}
    (hc : w.context = some c) {s : OSServices} (hs : w.service = some s)
    {p : ObservedProcess} (hp : w.process = some p) :
    ∃ c' evs, createControlStrategy cb w =
        some { w.adv c' evs with strategy := (strategyFor w.config).orElse fun _ => w.strategy } ∧
      Eff c c' evs ((strategyFor w.config).toList.map fun s => .call (.ControlStrategy_new s))
        (strategyReports w.config) := by
  obtain ⟨c1, e1, h1, f1⟩ := report_if_eff (w.config.configOptionExists "ControlStrategy" ≤ 0)
    hc .BAD_CONFIG "option_missing" "No control strategy configured"
  obtain ⟨c2, e2, h2, f2⟩ := report_if_eff (w.config.configOptionExists "ControlStrategy" > 1)
    (w := w.adv c1 e1) rfl .BAD_CONFIG "inconsistent"
    ("Specified " ++ toString (w.config.configOptionExists "ControlStrategy") ++
      " control strategies")
  obtain ⟨c3, e3, h3, f3⟩ : ∃ c3 e3,
      (if w.config.getConfigOption "ControlStrategy" = "autopin1" then
        ((w.adv c1 e1).adv c2 e2).newStrategy cb .Autopin1
      else if w.config.getConfigOption "ControlStrategy" = "noop" then
        ((w.adv c1 e1).adv c2 e2).newStrategy cb .Noop
      else if w.config.getConfigOption "ControlStrategy" = "compact" then
        ((w.adv c1 e1).adv c2 e2).newStrategy cb .Compact
      else if w.config.getConfigOption "ControlStrategy" = "scatter" then
        ((w.adv c1 e1).adv c2 e2).newStrategy cb .Scatter
      else
        ((w.adv c1 e1).adv c2 e2).report .UNSUPPORTED "critical"
          ("Control strategy \"" ++ w.config.getConfigOption "ControlStrategy" ++
            "\" is not supported")) =
        some { w.adv c3 (e1 ++ e2 ++ e3) with
          strategy := (strategyFor w.config).orElse fun _ => w.strategy } ∧
      Eff c2 c3 e3 ((strategyFor w.config).toList.map fun s => .call (.ControlStrategy_new s))
        (if (strategyFor w.config).isNone then
          [⟨.UNSUPPORTED, "critical",
            "Control strategy \"" ++ w.config.getConfigOption "ControlStrategy" ++
              "\" is not supported"⟩]
        else []) := by
    by_cases t1 : w.config.getConfigOption "ControlStrategy" = "autopin1"
    · simpa [t1, strategyFor, strategyImpl?] using
        newStrategy_eff cb .Autopin1 (w := (w.adv c1 e1).adv c2 e2) rfl hs hp
    by_cases t2 : w.config.getConfigOption "ControlStrategy" = "noop"
    · simpa [t1, t2, strategyFor, strategyImpl?] using
        newStrategy_eff cb .Noop (w := (w.adv c1 e1).adv c2 e2) rfl hs hp
    by_cases t3 : w.config.getConfigOption "ControlStrategy" = "compact"
    · simpa [t1, t2, t3, strategyFor, strategyImpl?] using
        newStrategy_eff cb .Compact (w := (w.adv c1 e1).adv c2 e2) rfl hs hp
    by_cases t4 : w.config.getConfigOption "ControlStrategy" = "scatter"
    · simpa [t1, t2, t3, t4, strategyFor, strategyImpl?] using
        newStrategy_eff cb .Scatter (w := (w.adv c1 e1).adv c2 e2) rfl hs hp
    · obtain ⟨c3, e3, h3, f3⟩ := report_eff (w := (w.adv c1 e1).adv c2 e2) rfl .UNSUPPORTED
        "critical" ("Control strategy \"" ++ w.config.getConfigOption "ControlStrategy" ++
            "\" is not supported")
      refine ⟨c3, e3, ?_, ?_⟩
      · simp only [t1, t2, t3, t4, ↓reduceIte, h3]
        simp [t1, t2, t3, t4, strategyFor, strategyImpl?, Watchdog.adv]
      · simpa [t1, t2, t3, t4, strategyFor, strategyImpl?] using f3
  refine ⟨c3, e1 ++ e2 ++ e3, ?_, ?_⟩
  · simp only [createControlStrategy, h1, Option.bind_eq_bind, Option.some_bind, adv_config,
      h2]
    simpa only [Option.bind_eq_bind, adv_config] using h3
  · have := (f1.append f2).append f3
    simpa [strategyReports] using this

theorem createDataLoggersLoop_eff (cb : Collaborators) (tags : List String) :
    ∀ (w : Watchdog) (c : AutopinContext), w.context = some c →
    ∃ c' evs, createDataLoggersLoop cb tags w =
        some { w.adv c' evs with loggers := w.loggers ++ loggersFor tags } ∧
      Eff c c' evs ((loggersFor tags).map fun l => .call (.Logger_new l)) (loggerReports tags) := by
  induction tags with
  | nil =>
    intro w c hc
    exact ⟨c, [], by simp [createDataLoggersLoop, loggersFor, adv_nil hc],
      by simpa [loggersFor, loggerReports] using Eff.refl c⟩
  | cons tag rest ih =>
    intro w c hc
    by_cases ht : tag = "external"
    · obtain ⟨c1, e1, h1, f1⟩ := call_eff cb (.Logger_new ⟨.External⟩) hc
      obtain ⟨c2, e2, h2, f2⟩ := ih { w.adv c1 (⟨c.isError, .call (.Logger_new ⟨.External⟩)⟩ :: e1)
        with loggers := w.loggers ++ [⟨.External⟩] } c1 rfl
      refine ⟨c2, (⟨c.isError, .call (.Logger_new ⟨.External⟩)⟩ :: e1) ++ e2, ?_, ?_⟩
      · simp only [createDataLoggersLoop, ht, ↓reduceIte, h1, Option.bind_eq_bind,
          Option.some_bind, adv_loggers, h2]
        simp [loggersFor, Watchdog.adv]
      · have := f1.append f2
        simpa [loggersFor, loggerReports, ht] using this
    · obtain ⟨c1, e1, h1, f1⟩ := report_eff hc .UNSUPPORTED "critical"
        ("Data logger \"" ++ tag ++ "\" is not supported")
      refine ⟨c1, e1, ?_, ?_⟩
      · simp only [createDataLoggersLoop, ht, ↓reduceIte, h1]
        simp [loggersFor, ht, Watchdog.adv]
      · simpa [loggersFor, loggerReports, ht] using f1

theorem createDataLoggers_eff (cb : Collaborators) {w : Watchdog} {c : AutopinContext}
    (hc : w.context = some c) :
    ∃ c' evs, createDataLoggers cb w =
        some { w.adv c' evs with
          loggers := w.loggers ++ loggersFor (w.config.getConfigOptionList "DataLoggers") } ∧
      Eff c c' evs
        ((loggersFor (w.config.getConfigOptionList "DataLoggers")).map
          fun l => .call (.Logger_new l))
        (loggerReports (w.config.getConfigOptionList "DataLoggers")) :=
  createDataLoggersLoop_eff cb _ w c hc

theorem exists_eq_some {α : Type} {o : Option α} {a : α} (h : o = some a) :
    ∃ x, o = some x ∧ x = a :=
  ⟨a, h, rfl⟩

theorem createContext_eq (counter : Int) (w : Watchdog) :
    createContext counter w = (wrapInt32 (counter + 1),
      { w with
        context := some (AutopinContext.new (contextName w.config counter))
        connections := w.connections ++ [errorEdge]
        trace := w.trace ++ [⟨false, .connect errorEdge⟩] }) := by
  simp [createContext, Watchdog.connect, Watchdog.emit, Watchdog.inError, contextName,
    AutopinContext.new, errorEdge]

theorem construct_eff (cb : Collaborators) (counter : Int) (w : Watchdog) :
    ∃ c' evs, construct cb counter w = some (wrapInt32 (counter + 1),
        { w with
          context := some c'
          service := some ⟨⟩
          process := some ⟨⟩
          strategy := (strategyFor w.config).orElse fun _ => w.strategy
          monitors := w.monitors ++
            monitorsFor w.config (w.config.getConfigOptionList "PerformanceMonitors")
          loggers := w.loggers ++ loggersFor (w.config.getConfigOptionList "DataLoggers")
          connections := w.connections ++ [errorEdge]
          trace := w.trace ++ ⟨false, .connect errorEdge⟩ :: evs }) ∧
      Eff (AutopinContext.new (contextName w.config counter)) c' evs (constructCalls w.config)
        (constructReports w.config) := by
  obtain ⟨w0, hw0⟩ : ∃ w0 : Watchdog, w0 = { w with
        context := some (AutopinContext.new (contextName w.config counter))
        connections := w.connections ++ [errorEdge]
        trace := w.trace ++ [⟨false, .connect errorEdge⟩] } := ⟨_, rfl⟩
  obtain ⟨c1, e1, h1, f1⟩ := createOSServices_eff cb (w := w0)
    (c := AutopinContext.new (contextName w.config counter)) (by rw [hw0])
  obtain ⟨w1, h1, hw1⟩ := exists_eq_some h1
  obtain ⟨c2, e2, h2, f2⟩ := createPerformanceMonitors_eff cb (w := w1) (c := c1) (by simp [hw1])
  obtain ⟨w2, h2, hw2⟩ := exists_eq_some h2
  obtain ⟨c3, e3, h3, f3⟩ := createObservedProcess_eff cb (w := w2) (c := c2) (by simp [hw2])
    (s := ⟨⟩) (by simp [hw2, hw1])
  obtain ⟨w3, h3, hw3⟩ := exists_eq_some h3
  obtain ⟨c4, e4, h4, f4⟩ := createControlStrategy_eff cb (w := w3) (c := c3) (by simp [hw3])
    (s := ⟨⟩) (by simp [hw3, hw2, hw1]) (p := ⟨⟩) (by simp [hw3])
  obtain ⟨w4, h4, hw4⟩ := exists_eq_some h4
  obtain ⟨c5, e5, h5, f5⟩ := createDataLoggers_eff cb (w := w4) (c := c4) (by simp [hw4])
  obtain ⟨w5, h5, hw5⟩ := exists_eq_some h5
  have k1 : w1.config = w.config := by simp [hw1, hw0]
  have k2 : w2.config = w.config := by simp [hw2, k1]
  have k3 : w3.config = w.config := by simp [hw3, k2]
  have k4 : w4.config = w.config := by simp [hw4, k3]
  refine ⟨c5, e1 ++ e2 ++ e3 ++ e4 ++ e5, ?_, ?_⟩
  · simp only [construct, createContext_eq, ← hw0, h1, h2, h3, h4, h5, Option.bind_eq_bind,
      Option.some_bind, Option.pure_def]
    subst hw5 hw4 hw3 hw2 hw1 hw0
    simp [Watchdog.adv]
  · have := (((f1.append f2).append f3).append f4).append f5
    have k0 : w0.config = w.config := by rw [hw0]
    simpa [constructCalls, constructReports, k0, k1, k2, k3, k4] using this

theorem foldlM_eff {α : Type} (step : α → Watchdog → Option Watchdog) (P : α → List Event)
    (hstep : ∀ (x : α) (w : Watchdog) (c : AutopinContext), w.context = some c →
      ∃ c' evs, step x w = some (w.adv c' evs) ∧ Eff c c' evs (P x) [])
    (xs : List α) :
    ∀ (w : Watchdog) (c : AutopinContext), w.context = some c →
    ∃ c' evs, xs.foldlM (fun w x => step x w) w = some (w.adv c' evs) ∧
      Eff c c' evs (xs.map P).flatten [] := by
  induction xs with
  | nil =>
    intro w c hc
    exact ⟨c, [], by simp [adv_nil hc], by simpa using Eff.refl c⟩
  | cons x xs ih =>
    intro w c hc
    obtain ⟨c1, e1, h1, f1⟩ := hstep x w c hc
    obtain ⟨c2, e2, h2, f2⟩ := ih (w.adv c1 e1) c1 rfl
    refine ⟨c2, e1 ++ e2, ?_, ?_⟩
    · simp [List.foldlM_cons, h1, h2]
    · simpa using f1.append f2

theorem Eff.congr {c c' : AutopinContext} {evs : List Entry} {P P' : List Event}
    {O O' : List Report} (h : Eff c c' evs P O) (hP : P = P') (hO : O = O') :
    Eff c c' evs P' O' := by
  subst hP hO
  exact h

theorem flatten_map_singleton {α β : Type} (f : α → β) (xs : List α) :
    (xs.map fun x => [f x]).flatten = xs.map f := by
  induction xs with
  | nil => rfl
  | cons x xs ih => simp [ih]

theorem call_eff_any (cb : Collaborators) (k : Call) {w : Watchdog} {c : AutopinContext}
    (hc : w.context = some c) :
    ∃ c' evs, w.call cb k = some (w.adv c' evs) ∧ Eff c c' evs [.call k] [] := by
  obtain ⟨c', rest, h, f⟩ := call_eff cb k hc
  exact ⟨c', _, h, f⟩

theorem createComponentConnections_eq {w : Watchdog} {s : OSServices} {p : ObservedProcess}
    {st : ControlStrategy} (hs : w.service = some s) (hp : w.process = some p)
    (hst : w.strategy = some st) :
    createComponentConnections w =
      { w with
        connections := w.connections ++ topology
        trace := w.trace ++ topology.map fun k => ⟨w.inError, .connect k⟩ } := by
  obtain ⟨cfg, ctx, sv, pr, sg, ms, ls, cs, tr⟩ := w
  simp only at hs hp hst
  subst hs hp hst
  unfold createComponentConnections
  simp only [Option.map]
  simp only [Watchdog.connect]
  simp only [Watchdog.emit, Watchdog.inError]
  simp only [topology, List.map, List.append_assoc, List.cons_append, List.nil_append]

theorem createComponentConnections_frame (w : Watchdog) :
    (createComponentConnections w).context = w.context ∧
    (createComponentConnections w).process = w.process ∧
    (createComponentConnections w).monitors = w.monitors := by
  obtain ⟨cfg, ctx, sv, pr, sg, ms, ls, cs, tr⟩ := w
  cases sv <;> cases pr <;> cases sg <;> exact ⟨rfl, rfl, rfl⟩

theorem initComponents_eff (cb : Collaborators) {w : Watchdog} {c : AutopinContext}
    (hc : w.context = some c) {s : OSServices} (hs : w.service = some s)
    {p : ObservedProcess} (hp : w.process = some p) (st : ControlStrategy)
    (hst : w.strategy = some st) :
    ∃ c' evs, initComponents cb w = some (w.adv c' evs) ∧ Eff c c' evs (initCalls w st) [] := by
  obtain ⟨h0, f0⟩ := info_eff "Initializing environment ..." hc
  obtain ⟨w0, h0, hw0⟩ := exists_eq_some h0
  obtain ⟨c1, e1, h1, f1⟩ := call_eff cb .OSServices_init (w := w0) (c := c) (by simp [hw0])
  obtain ⟨w1, h1, hw1⟩ := exists_eq_some h1
  obtain ⟨h2, f2⟩ := info_eff "Initializing performance monitors" (w := w1) (c := c1)
    (by simp [hw1])
  obtain ⟨w2, h2, hw2⟩ := exists_eq_some h2
  obtain ⟨c3, e3, h3, f3⟩ := foldlM_eff (fun m w => w.call cb (.Monitor_init m))
    (fun m => [.call (.Monitor_init m)]) (fun m w c hc => call_eff_any cb (.Monitor_init m) hc)
    w.monitors w2 c1 (by simp [hw2])
  obtain ⟨w3, h3, hw3⟩ := exists_eq_some h3
  obtain ⟨c4, e4, h4, f4⟩ := call_eff cb .ObservedProcess_init (w := w3) (c := c3)
    (by simp [hw3])
  obtain ⟨w4, h4, hw4⟩ := exists_eq_some h4
  obtain ⟨h5, f5⟩ := info_eff "Initializing control strategy" (w := w4) (c := c4)
    (by simp [hw4])
  obtain ⟨w5, h5, hw5⟩ := exists_eq_some h5
  obtain ⟨c6, e6, h6, f6⟩ := call_eff cb (.ControlStrategy_init st) (w := w5) (c := c4)
    (by simp [hw5])
  obtain ⟨w6, h6, hw6⟩ := exists_eq_some h6
  obtain ⟨h7, f7⟩ := info_eff "Initializing data loggers" (w := w6) (c := c6) (by simp [hw6])
  obtain ⟨w7, h7, hw7⟩ := exists_eq_some h7
  obtain ⟨c8, e8, h8, f8⟩ := foldlM_eff (fun l w => w.call cb (.Logger_init l))
    (fun l => [.call (.Logger_init l)]) (fun l w c hc => call_eff_any cb (.Logger_init l) hc)
    w.loggers w7 c6 (by simp [hw7])
  obtain ⟨w8, h8, hw8⟩ := exists_eq_some h8
  have m2 : w2.monitors = w.monitors := by simp [hw2, hw1, hw0]
  have s0 : w0.service = some s := by simp [hw0, hs]
  have p3 : w3.process = some p := by simp [hw3, hw2, hw1, hw0, hp]
  have st5 : w5.strategy = some st := by simp [hw5, hw4, hw3, hw2, hw1, hw0, hst]
  have l7 : w7.loggers = w.loggers := by simp [hw7, hw6, hw5, hw4, hw3, hw2, hw1, hw0]
  have F := (((((((f0.append f1).append f2).append f3).append f4).append f5).append f6).append
    f7).append f8
  refine ⟨c8, _, ?_, F.congr ?_ ?_⟩
  · unfold initComponents
    rw [h0]
    simp only [Option.bind_eq_bind, Option.some_bind, Watchdog.initService, s0, h1, h2, m2, h3]
    simp only [Watchdog.initProcess, p3, h4, h5, Option.some_bind]
    simp only [Watchdog.initStrategy, st5, h6, h7, l7, h8, Option.some_bind]
    rw [hw8, hw7, hw6, hw5, hw4, hw3, hw2, hw1, hw0]
    simp only [adv_adv, List.append_assoc, List.cons_append, List.nil_append]
  · simp only [initCalls, flatten_map_singleton, List.append_assoc, List.nil_append,
      List.append_nil, List.cons_append]
  · rfl

theorem protocol_connects (b : Bool) (ks : List Connection) :
    protocol (ks.map fun k => ⟨b, .connect k⟩) = ks.map fun k => .connect k := by
  induction ks with
  | nil => rfl
  | cons k ks ih => simp [ih, Event.isProtocol]

theorem anyReport_connects (b : Bool) (ks : List Connection) :
    anyReport (ks.map fun k => ⟨b, .connect k⟩) = false := by
  induction ks with
  | nil => rfl
  | cons k ks ih => simp [ih, Event.isReport]

theorem ownReports_connects (b : Bool) (ks : List Connection) :
    ownReports (ks.map fun k => ⟨b, .connect k⟩) = [] := by
  induction ks with
  | nil => rfl
  | cons k ks ih => simp [ih, Event.ownReport]

theorem rebind_eff (cb : Collaborators) (pid : Int) (m : Monitor) (w : Watchdog)
    (c : AutopinContext) (hc : w.context = some c) :
    ∃ c' evs, (do
        let w ← w.call cb (.Monitor_init m)
        w.call cb (.Monitor_setObservedProcessPid m pid)) = some (w.adv c' evs) ∧
      Eff c c' evs [.call (.Monitor_init m), .call (.Monitor_setObservedProcessPid m pid)] [] := by
  obtain ⟨c1, e1, h1, f1⟩ := call_eff_any cb (.Monitor_init m) hc
  obtain ⟨c2, e2, h2, f2⟩ := call_eff_any cb (.Monitor_setObservedProcessPid m pid)
    (w := w.adv c1 e1) rfl
  exact ⟨c2, e1 ++ e2, by simp [h1, h2], f1.append f2⟩

theorem goLive_eff (cb : Collaborators) {w : Watchdog} {c : AutopinContext}
    (hc : w.context = some c) {s : OSServices} (hs : w.service = some s)
    {p : ObservedProcess} (hp : w.process = some p) (st : ControlStrategy)
    (hst : w.strategy = some st) :
    ∃ cm mid c' tail, goLive cb w =
        some { w.adv c' ((topology.map fun k => ⟨c.isError, .connect k⟩) ++
            ⟨c.isError, .info "Connecting to the observed process ..."⟩ ::
            ⟨c.isError, .call .ObservedProcess_start⟩ :: (mid ++ tail)) with
          connections := w.connections ++ topology } ∧
      Eff c cm (⟨c.isError, .call .ObservedProcess_start⟩ :: mid)
        [.call .ObservedProcess_start, .call .ObservedProcess_getPid] [] ∧
      Eff cm c' tail
        ((w.monitors.map fun m =>
            [Event.call (.Monitor_init m),
              .call (.Monitor_setObservedProcessPid m
                (cb.getPid (w.trace ++ ((topology.map fun k => ⟨c.isError, .connect k⟩) ++
                  ⟨c.isError, .info "Connecting to the observed process ..."⟩ ::
                  ⟨c.isError, .call .ObservedProcess_start⟩ :: mid))))]).flatten ++
          [.sig_watchdogReady]) [] := by
  obtain ⟨wA, hwA⟩ : ∃ wA : Watchdog, wA = createComponentConnections w := ⟨_, rfl⟩
  have hA := createComponentConnections_eq hs hp hst
  rw [← hwA] at hA
  have cA : wA.context = some c := by simp [hA, hc]
  have pA : wA.process = some p := by simp [hA, hp]
  have mA : wA.monitors = w.monitors := by simp [hA]
  obtain ⟨h0, f0⟩ := info_eff "Connecting to the observed process ..." cA
  obtain ⟨w0, h0, hw0⟩ := exists_eq_some h0
  obtain ⟨c1, e1, h1, f1⟩ := call_eff cb .ObservedProcess_start (w := w0) (c := c)
    (by simp [hw0])
  obtain ⟨w1, h1, hw1⟩ := exists_eq_some h1
  obtain ⟨c2, e2, h2, f2⟩ := call_eff_any cb .ObservedProcess_getPid (w := w1) (c := c1)
    (by simp [hw1])
  obtain ⟨w2, h2, hw2⟩ := exists_eq_some h2
  obtain ⟨h3, f3⟩ := info_eff "Starting control strategy ..." (w := w2) (c := c2)
    (by simp [hw2])
  obtain ⟨w3, h3, hw3⟩ := exists_eq_some h3
  obtain ⟨c4, e4, h4, f4⟩ := foldlM_eff
    (fun m w => do
      let w ← w.call cb (.Monitor_init m)
      w.call cb (.Monitor_setObservedProcessPid m (cb.getPid w2.trace)))
    (fun m => [.call (.Monitor_init m),
      .call (.Monitor_setObservedProcessPid m (cb.getPid w2.trace))])
    (rebind_eff cb (cb.getPid w2.trace)) w.monitors w3 c2 (by simp [hw3])
  obtain ⟨w4, h4, hw4⟩ := exists_eq_some h4
  have p0 : w0.process = some p := by simp [hw0, pA]
  have m3 : w3.monitors = w.monitors := by simp [hw3, hw2, hw1, hw0, mA]
  have c4' : w4.inError = c4.isError := by simp [hw4, Watchdog.inError]
  have t2 : w2.trace = w.trace ++ ((topology.map fun k => ⟨c.isError, .connect k⟩) ++
      ⟨c.isError, .info "Connecting to the observed process ..."⟩ ::
      ⟨c.isError, .call .ObservedProcess_start⟩ :: (e1 ++ e2)) := by
    rw [hw2, hw1, hw0, hA]
    simp [Watchdog.adv, hc, Watchdog.inError]
  have F1 := f1.append f2
  have F2 := (f3.append f4).append
    (show Eff c4 c4 [⟨c4.isError, .sig_watchdogReady⟩] [.sig_watchdogReady] [] from
      ⟨rfl, by simp [Event.isReport], by simp [Event.isProtocol], by simp [Event.ownReport]⟩)
  rw [t2] at F2
  refine ⟨c2, e1 ++ e2, c4, _, ?_, F1.congr ?_ ?_, F2.congr ?_ ?_⟩
  · unfold goLive
    simp only [Option.bind_eq_bind] at h4
    simp only [← hwA, h0, Option.bind_eq_bind, Option.some_bind, p0, h1, h2, h3, m3, h4,
      Option.pure_def, Watchdog.emit, c4']
    rw [hw4, hw3, hw2, hw1, hw0, hA]
    simp [Watchdog.adv, hc, Watchdog.inError]
  · rfl
  · rfl
  · simp only [List.append_assoc, List.nil_append, List.append_nil, List.cons_append]
  · rfl

theorem ownReports_nil_of_anyReport {evs : List Entry} (h : anyReport evs = false) :
    ownReports evs = [] := by
  induction evs with
  | nil => rfl
  | cons e evs ih =>
    simp only [anyReport_cons, Bool.or_eq_false_iff] at h
    rw [ownReports_cons, ih h.2]
    cases hev : e.ev <;> simp [Event.ownReport]
    simp [hev, Event.isReport] at h

theorem Eff.not_error {c c' : AutopinContext} {evs : List Entry} {P : List Event}
    {O : List Report} (h : Eff c c' evs P O) (hok : c'.isError = false) :
    c.isError = false ∧ anyReport evs = false ∧ O = [] := by
  have := h.err
  rw [hok] at this
  have h2 := Bool.or_eq_false_iff.mp this.symm
  exact ⟨h2.1, h2.2, h.own ▸ ownReports_nil_of_anyReport h2.2⟩

theorem Eff.error_mono {c c' : AutopinContext} {evs : List Entry} {P : List Event}
    {O : List Report} (h : Eff c c' evs P O) (herr : c.isError = true) : c'.isError = true := by
  rw [h.err, herr]; rfl

theorem Eff.error_of_own {c c' : AutopinContext} {evs : List Entry} {P : List Event}
    {O : List Report} (h : Eff c c' evs P O) (hO : O ≠ []) : c'.isError = true := by
  by_contra hne
  exact hO (h.not_error (by simpa using hne)).2.2

theorem construct_new (cb : Collaborators) (counter : Int) (config : Configuration) :
    ∃ c evs, construct cb counter (Watchdog.new config) =
        some (wrapInt32 (counter + 1), built config c evs) ∧
      Eff (AutopinContext.new (contextName config counter)) c evs (constructCalls config)
        (constructReports config) := by
  obtain ⟨c, evs, h, f⟩ := construct_eff cb counter (Watchdog.new config)
  refine ⟨c, evs, ?_, f⟩
  rw [h]
  cases hs : strategyFor config <;> simp [Watchdog.new, built, hs]

theorem strategy_of_no_error {config : Configuration} (h : constructReports config = []) :
    ∃ st, strategyFor config = some st := by
  cases hs : strategyFor config with
  | some st => exact ⟨st, rfl⟩
  | none => simp [constructReports, strategyReports, hs] at h

theorem isError_eq (gate : Nat) {w : Watchdog} {c : AutopinContext} (hc : w.context = some c) :
    w.isError gate = some (c.isError, w.adv c [⟨c.isError, .checkpoint gate⟩]) := by
  simp [Watchdog.isError, hc, Watchdog.emit, Watchdog.inError, Watchdog.adv]

theorem run_haltedGate1 {cb : Collaborators} {counter n : Int} {w0 wc : Watchdog}
    {c : AutopinContext} (h : construct cb counter w0 = some (n, wc)) (hc : wc.context = some c)
    (herr : c.isError = true) :
    slot_watchdogRun cb counter w0 =
      some (.haltedGate1, n, wc.adv c [⟨true, .checkpoint 1⟩]) := by
  simp [slot_watchdogRun, h, isError_eq 1 hc, herr]

theorem run_haltedGate2 {cb : Collaborators} {counter n : Int} {w0 wc wi : Watchdog}
    {c c1 : AutopinContext} (h : construct cb counter w0 = some (n, wc))
    (hc : wc.context = some c) (hok : c.isError = false)
    (hi : initComponents cb (wc.adv c [⟨false, .checkpoint 1⟩]) = some wi)
    (hc1 : wi.context = some c1) (herr : c1.isError = true) :
    slot_watchdogRun cb counter w0 =
      some (.haltedGate2, n, wi.adv c1 [⟨true, .checkpoint 2⟩]) := by
  simp [slot_watchdogRun, h, isError_eq 1 hc, hok, hi, isError_eq 2 hc1, herr]

theorem run_live {cb : Collaborators} {counter n : Int} {w0 wc wi wl : Watchdog}
    {c c1 : AutopinContext} (h : construct cb counter w0 = some (n, wc))
    (hc : wc.context = some c) (hok : c.isError = false)
    (hi : initComponents cb (wc.adv c [⟨false, .checkpoint 1⟩]) = some wi)
    (hc1 : wi.context = some c1) (hok1 : c1.isError = false)
    (hl : goLive cb (wi.adv c1 [⟨false, .checkpoint 2⟩]) = some wl) :
    slot_watchdogRun cb counter w0 = some (.live, n, wl) := by
  simp [slot_watchdogRun, h, isError_eq 1 hc, hok, hi, isError_eq 2 hc1, hok1, hl]

theorem slot_watchdogRun_construct (cb : Collaborators) (counter : Int)
    (config : Configuration) :
    ∃ c evs o w,
      construct cb counter (Watchdog.new config) =
        some (wrapInt32 (counter + 1), built config c evs) ∧
      slot_watchdogRun cb counter (Watchdog.new config) =
        some (o, wrapInt32 (counter + 1), w) ∧
      RunShape cb config counter o w ∧ (c.isError = true ↔ o = .haltedGate1) := by
  obtain ⟨c, evs, h, f⟩ := construct_new cb counter config
  cases herr : c.isError with
  | true =>
    exact ⟨c, evs, .haltedGate1, _, h, run_haltedGate1 h rfl herr, RunShape.gate1 c evs h f herr,
      by simp [herr]⟩
  | false =>
    obtain ⟨st, hst⟩ := strategy_of_no_error (f.not_error herr).2.2
    obtain ⟨c1, evs1, h1, f1⟩ := initComponents_eff cb
      (w := (built config c evs).adv c [⟨false, .checkpoint 1⟩]) (c := c) rfl
      (s := ⟨⟩) rfl (p := ⟨⟩) rfl st (by simp [built, hst])
    cases herr1 : c1.isError with
    | true =>
      refine ⟨c, evs, .haltedGate2, _, h, run_haltedGate2 h rfl herr h1 rfl herr1, ?_,
        by simp [herr]⟩
      have := RunShape.gate2 c evs st c1 evs1 h f herr hst f1 herr1
      simpa using this
    | false =>
      obtain ⟨cm, mid, c2, tail, h2, f2, f3⟩ := goLive_eff cb
        (w := (((built config c evs).adv c [⟨false, .checkpoint 1⟩]).adv c1 evs1).adv c1
          [⟨false, .checkpoint 2⟩]) (c := c1) rfl (s := ⟨⟩) rfl (p := ⟨⟩) rfl st
        (by simp [built, hst])
      rw [herr1] at h2 f2 f3
      refine ⟨c, evs, .live, _, h, run_live h rfl herr h1 rfl herr1 h2, ?_,
        by simp [herr]⟩
      have := RunShape.live c evs st c1 evs1 cm mid c2 tail _ h f herr hst f1 herr1 f2 rfl
        (by simpa [Watchdog.adv, built] using f3)
      simpa [Watchdog.adv, built] using this

theorem slot_watchdogRun_new (cb : Collaborators) (counter : Int) (config : Configuration) :
    ∃ o w, slot_watchdogRun cb counter (Watchdog.new config) =
        some (o, wrapInt32 (counter + 1), w) ∧ RunShape cb config counter o w := by
  obtain ⟨_, _, o, w, _, hrun, hs, _⟩ := slot_watchdogRun_construct cb counter config
  exact ⟨o, w, hrun, hs⟩

/-! ## Shapes of a run -/

theorem mem_protocol {evs : List Entry} {e : Entry} (he : e ∈ evs)
    (hp : e.ev.isProtocol = true) : e.ev ∈ protocol evs := by
  simp only [protocol, List.mem_filter, List.mem_map]
  exact ⟨⟨e, he, rfl⟩, hp⟩

theorem mem_ownReports {evs : List Entry} {r : Report} :
    r ∈ ownReports evs ↔ ∃ b, ⟨b, .report r⟩ ∈ evs := by
  simp only [ownReports, List.mem_filterMap]
  constructor
  · rintro ⟨⟨b, ev⟩, he, h⟩
    cases ev <;> simp [Event.ownReport] at h
    subst h
    exact ⟨b, he⟩
  · rintro ⟨b, he⟩
    exact ⟨_, he, rfl⟩

theorem isNew_of_mem_constructCalls {config : Configuration} {ev : Event}
    (h : ev ∈ constructCalls config) : ∃ k, ev = .call k ∧ k.isNew = true := by
  simp only [constructCalls, List.mem_append, List.mem_map, List.mem_singleton] at h
  rcases h with (((h | ⟨m, _, h⟩) | h) | ⟨s, _, h⟩) | ⟨l, _, h⟩
  · exact ⟨_, h, rfl⟩
  · exact ⟨_, h.symm, rfl⟩
  · exact ⟨_, h, rfl⟩
  · exact ⟨_, h.symm, rfl⟩
  · exact ⟨_, h.symm, rfl⟩

/-- The fields of the `Watchdog` a run leaves. -/
theorem RunShape.fields {cb : Collaborators} {config : Configuration} {counter : Int} {o : Outcome} {w : Watchdog}
    (h : RunShape cb config counter o w) :
    w.config = config ∧ w.strategy = strategyFor config ∧
    w.monitors = monitorsFor config (config.getConfigOptionList "PerformanceMonitors") ∧
    w.loggers = loggersFor (config.getConfigOptionList "DataLoggers") ∧
    w.connections = (if o = .live then errorEdge :: topology else [errorEdge]) ∧
    ∃ c, w.context = some c ∧ c.name = contextName config counter ∧
      (o ≠ .live → c.isError = true) := by
  cases h with
  | gate1 c evs hb h0 herr =>
    exact ⟨rfl, rfl, rfl, rfl, rfl, c, rfl, h0.name, fun _ => herr⟩
  | gate2 c evs st c1 evs1 hb h0 hok hst h1 herr =>
    exact ⟨rfl, rfl, rfl, rfl, rfl, c1, rfl, h1.name.trans h0.name, fun _ => herr⟩
  | live c evs st c1 evs1 cm mid c2 tail pid hb h0 hok hst h1 hok1 h2 hpid h3 =>
    exact ⟨rfl, rfl, rfl, rfl, rfl, c2, rfl,
      h3.name.trans (h2.name.trans (h1.name.trans h0.name)), fun h => absurd rfl h⟩

/-- The protocol and the errors of the `Watchdog` itself in the trace a run
leaves. -/
theorem RunShape.trace {cb : Collaborators} {config : Configuration} {counter : Int} {o : Outcome} {w : Watchdog}
    (h : RunShape cb config counter o w) :
    ownReports w.trace = constructReports config ∧
    ∃ st pid, (o ≠ .haltedGate1 → w.strategy = some st) ∧
      protocol w.trace = runProtocol config w st pid o := by
  cases h with
  | gate1 c evs hb h0 herr =>
    refine ⟨?_, ⟨.Noop⟩, 0, fun h => absurd rfl h, ?_⟩
    · simp [built, h0.own, Event.ownReport]
    · simp [built, h0.prot, Event.isProtocol, runProtocol]
  | gate2 c evs st c1 evs1 hb h0 hok hst h1 herr =>
    refine ⟨?_, st, 0, fun _ => hst, ?_⟩
    · simp [built, h0.own, h1.own, Event.ownReport]
    · simp [built, h0.prot, h1.prot, Event.isProtocol, runProtocol, initCalls]
  | live c evs st c1 evs1 cm mid c2 tail pid hb h0 hok hst h1 hok1 h2 hpid h3 =>
    have hr := h2.own
    have hp := h2.prot
    simp only [ownReports_cons, protocol_cons, Event.ownReport, Event.isProtocol, if_true] at hr hp
    have hp' : protocol mid = [.call .ObservedProcess_getPid] := (List.cons.inj hp).2
    refine ⟨?_, st, pid, fun _ => hst, ?_⟩
    · simp [built, h0.own, h1.own, hr, h3.own, Event.ownReport, ownReports_connects]
    · simp [built, h0.prot, h1.prot, hp', h3.prot, Event.isProtocol, runProtocol, initCalls,
        liveCalls, protocol_connects]

/-- The result of a run on a fresh `Watchdog` has one of the three shapes. -/
theorem shape_of_run {cb : Collaborators} {counter n : Int} {config : Configuration}
    {o : Outcome} {w : Watchdog}
    (h : slot_watchdogRun cb counter (Watchdog.new config) = some (o, n, w)) :
    n = wrapInt32 (counter + 1) ∧ RunShape cb config counter o w := by
  obtain ⟨o', w', h', hs⟩ := slot_watchdogRun_new cb counter config
  rw [h'] at h
  simp only [Option.some.injEq, Prod.mk.injEq] at h
  obtain ⟨rfl, rfl, rfl⟩ := h
  exact ⟨rfl, hs⟩

/-! ## Properties of the start-up protocol -/

theorem strategyReports_ne_nil {config : Configuration}
    (h : config.configOptionExists "ControlStrategy" ≤ 0 ∨
      config.configOptionExists "ControlStrategy" > 1 ∨
      config.getConfigOption "ControlStrategy" ∉ ["autopin1", "noop", "compact", "scatter"]) :
    strategyReports config ≠ [] := by
  rcases h with h | h | h
  · simp [strategyReports, h]
  · simp [strategyReports, h]
  · simp only [List.mem_cons, List.mem_singleton, List.not_mem_nil, or_false, not_or] at h
    simp [strategyReports, strategyFor, strategyImpl?, h.1, h.2.1, h.2.2.1, h.2.2.2]

theorem run_of_construct_error (cb : Collaborators) (counter : Int) (config : Configuration)
    (h : constructReports config ≠ []) :
    ∃ w, slot_watchdogRun cb counter (Watchdog.new config) =
        some (.haltedGate1, wrapInt32 (counter + 1), w) ∧
      RunShape cb config counter .haltedGate1 w := by
  obtain ⟨o, w, hrun, hs⟩ := slot_watchdogRun_new cb counter config
  cases hs with
  | gate1 c evs hb h0 herr => exact ⟨_, hrun, RunShape.gate1 c evs hb h0 herr⟩
  | gate2 c evs st c1 evs1 hb h0 hok hst h1 herr => exact absurd (h0.not_error hok).2.2 h
  | live c evs st c1 evs1 cm mid c2 tail pid hb h0 hok hst h1 hok1 h2 hpid h3 =>
    exact absurd (h0.not_error hok).2.2 h

theorem gate1_only_constructors {cb : Collaborators} {config : Configuration} {counter : Int} {w : Watchdog}
    (hs : RunShape cb config counter .haltedGate1 w) :
    ∀ e ∈ w.trace, ∀ k, e.ev = .call k → k.isNew = true := by
  intro e he k hk
  obtain ⟨_, st, pid, _, hp⟩ := hs.trace
  have hm := mem_protocol he (by rw [hk]; rfl)
  rw [hp, hk] at hm
  simp only [runProtocol, List.mem_cons, List.mem_append, List.mem_singleton,
    reduceCtorEq, false_or, or_false, List.not_mem_nil] at hm
  obtain ⟨k', hk', hnew⟩ := isNew_of_mem_constructCalls hm
  cases hk'
  exact hnew

/-- C2: when `ControlStrategy` is missing (count at most 0), given more than
once (count above 1) or names a tag outside autopin1, noop, compact, scatter,
`createControlStrategy` leaves the context in error state whatever
`getConfigOption` returns, and a run of `slot_watchdogRun` on a fresh `Watchdog`
halts at the first gate with the context in error: the observed process is not
started and the ready signal is not emitted. -/
theorem controlStrategy_error_never_live (cb : Collaborators) (counter : Int)
    (config : Configuration)
    (h : config.configOptionExists "ControlStrategy" ≤ 0 ∨
      config.configOptionExists "ControlStrategy" > 1 ∨
      config.getConfigOption "ControlStrategy" ∉ ["autopin1", "noop", "compact", "scatter"]) :
    (∀ (w : Watchdog) (c : AutopinContext) (s : OSServices) (p : ObservedProcess),
      w.config = config → w.context = some c → w.service = some s → w.process = some p →
      ∃ w', createControlStrategy cb w = some w' ∧ w'.inError = true) ∧
    ∃ w, slot_watchdogRun cb counter (Watchdog.new config) =
        some (.haltedGate1, wrapInt32 (counter + 1), w) ∧
      w.inError = true ∧
      ∀ e ∈ w.trace, e.ev ≠ .call .ObservedProcess_start ∧ e.ev ≠ .sig_watchdogReady := by
  have hne := strategyReports_ne_nil h
  constructor
  · intro w c s p hcfg hc hs hp
    obtain ⟨c', evs, hrun, f⟩ := createControlStrategy_eff cb hc hs hp
    rw [hcfg] at f
    exact ⟨_, hrun, by simpa [Watchdog.inError] using f.error_of_own hne⟩
  · obtain ⟨w, hrun, hs⟩ := run_of_construct_error cb counter config
      (by simp [constructReports, hne])
    refine ⟨w, hrun, ?_, ?_⟩
    · obtain ⟨_, _, _, _, _, c, hc, _, herr⟩ := hs.fields
      simp [Watchdog.inError, hc, herr]
    · intro e he
      obtain ⟨_, st, pid, _, hp⟩ := hs.trace
      constructor
      · intro hev
        have := gate1_only_constructors hs e he _ hev
        simp [Call.isNew] at this
      · intro hev
        have hm := mem_protocol he (by rw [hev]; rfl)
        rw [hp, hev] at hm
        simp only [runProtocol, List.mem_cons, List.mem_append, List.mem_singleton,
          reduceCtorEq, false_or, or_false, List.not_mem_nil] at hm
        obtain ⟨k', hk', _⟩ := isNew_of_mem_constructCalls hm
        cases hk'

/-- C2, at scenario C: the tag `unknown` is none of the four. -/
theorem controlStrategy_error_never_live_witness :
    (scenarioC.configOptionExists "ControlStrategy" ≤ 0 ∨
      scenarioC.configOptionExists "ControlStrategy" > 1 ∨
      scenarioC.getConfigOption "ControlStrategy" ∉ ["autopin1", "noop", "compact", "scatter"]) ∧
    ∃ w, slot_watchdogRun quiet 0 (Watchdog.new scenarioC) =
        some (.haltedGate1, wrapInt32 (0 + 1), w) ∧
      w.inError = true ∧
      ∀ e ∈ w.trace, e.ev ≠ .call .ObservedProcess_start ∧ e.ev ≠ .sig_watchdogReady :=
  ⟨Or.inr (Or.inr (by decide)),
    (controlStrategy_error_never_live quiet 0 scenarioC (Or.inr (Or.inr (by decide)))).2⟩

/-- The error `createPerformanceMonitors` reports for the number of type
values of an entry, lines 123-129. -/
theorem typeCount_report_mem {config : Configuration} {name : String}
    (hmem : name ∈ config.getConfigOptionList "PerformanceMonitors") :
    (config.configOptionExists (name ++ ".type") ≤ 0 →
      (⟨.BAD_CONFIG, "option_missing",
        "Type for monitor \"" ++ name ++ "\" is not specified"⟩ : Report) ∈
        monitorReports config) ∧
    (config.configOptionExists (name ++ ".type") > 1 →
      (⟨.BAD_CONFIG, "inconsistent",
        "Specified " ++ toString (config.configOptionExists (name ++ ".type")) ++
          " types for monitor " ++ name⟩ : Report) ∈ monitorReports config) := by
  constructor
  · intro h
    simp only [monitorReports, monitorListReports, List.mem_append, List.mem_flatten,
      List.mem_map]
    exact Or.inr ⟨_, ⟨name, hmem, rfl⟩, by simp [monitorEntryReports, h]⟩
  · intro h
    have h' : ¬ config.configOptionExists (name ++ ".type") ≤ 0 := by omega
    simp only [monitorReports, monitorListReports, List.mem_append, List.mem_flatten,
      List.mem_map]
    exact Or.inr ⟨_, ⟨name, hmem, rfl⟩, by simp [monitorEntryReports, h, h']⟩

/-- C3: for an entry of `PerformanceMonitors` whose `.type` option has count at
most 0 or above 1, `createPerformanceMonitors` reports the error for that count
(`option_missing`, respectively `inconsistent`), and a run of `slot_watchdogRun`
on a fresh `Watchdog` halts at the first gate having made constructor calls
only: no monitor has `init()` called, whatever tag `getConfigOption` returns. -/
theorem monitor_type_count_error_no_init (cb : Collaborators) (counter : Int)
    (config : Configuration) (name : String)
    (hmem : name ∈ config.getConfigOptionList "PerformanceMonitors")
    (hcount : config.configOptionExists (name ++ ".type") ≤ 0 ∨
      config.configOptionExists (name ++ ".type") > 1) :
    (∀ (w : Watchdog) (c : AutopinContext), w.config = config → w.context = some c →
      ∃ w' evs, createPerformanceMonitors cb w = some w' ∧ w'.trace = w.trace ++ evs ∧
        w'.inError = true ∧
        (config.configOptionExists (name ++ ".type") ≤ 0 →
          (⟨.BAD_CONFIG, "option_missing",
            "Type for monitor \"" ++ name ++ "\" is not specified"⟩ : Report) ∈
            ownReports evs) ∧
        (config.configOptionExists (name ++ ".type") > 1 →
          (⟨.BAD_CONFIG, "inconsistent",
            "Specified " ++ toString (config.configOptionExists (name ++ ".type")) ++
              " types for monitor " ++ name⟩ : Report) ∈ ownReports evs)) ∧
    ∃ w, slot_watchdogRun cb counter (Watchdog.new config) =
        some (.haltedGate1, wrapInt32 (counter + 1), w) ∧
      (config.configOptionExists (name ++ ".type") ≤ 0 →
        (⟨.BAD_CONFIG, "option_missing",
          "Type for monitor \"" ++ name ++ "\" is not specified"⟩ : Report) ∈
          ownReports w.trace) ∧
      (config.configOptionExists (name ++ ".type") > 1 →
        (⟨.BAD_CONFIG, "inconsistent",
          "Specified " ++ toString (config.configOptionExists (name ++ ".type")) ++
            " types for monitor " ++ name⟩ : Report) ∈ ownReports w.trace) ∧
      (∀ e ∈ w.trace, ∀ k, e.ev = .call k → k.isNew = true) ∧
      ∀ e ∈ w.trace, ∀ m, e.ev ≠ .call (.Monitor_init m) := by
  have hrep := typeCount_report_mem hmem
  have hne : monitorReports config ≠ [] := by
    rcases hcount with h | h
    · exact List.ne_nil_of_mem (hrep.1 h)
    · exact List.ne_nil_of_mem (hrep.2 h)
  constructor
  · intro w c hcfg hc
    obtain ⟨c', evs, hrun, f⟩ := createPerformanceMonitors_eff cb hc
    rw [hcfg] at f
    refine ⟨_, evs, hrun, rfl, by simpa [Watchdog.inError] using f.error_of_own hne, ?_, ?_⟩
    · rw [f.own]; exact hrep.1
    · rw [f.own]; exact hrep.2
  · obtain ⟨w, hrun, hs⟩ := run_of_construct_error cb counter config
      (by simp [constructReports, hne])
    have hown : monitorReports config ⊆ ownReports w.trace := by
      rw [hs.trace.1]
      intro r hr
      simp [constructReports, hr]
    refine ⟨w, hrun, fun h => hown (hrep.1 h), fun h => hown (hrep.2 h),
      gate1_only_constructors hs, ?_⟩
    intro e he m hev
    have := gate1_only_constructors hs e he _ hev
    simp [Call.isNew] at this

/-- C3, at scenario B with two type values for `m1`. -/
theorem monitor_type_count_error_no_init_witness :
    "m1" ∈ twoTypes.getConfigOptionList "PerformanceMonitors" ∧
    (twoTypes.configOptionExists ("m1" ++ ".type") ≤ 0 ∨
      twoTypes.configOptionExists ("m1" ++ ".type") > 1) ∧
    ∃ w, slot_watchdogRun quiet 0 (Watchdog.new twoTypes) =
        some (.haltedGate1, wrapInt32 (0 + 1), w) ∧
      (twoTypes.configOptionExists ("m1" ++ ".type") ≤ 0 →
        (⟨.BAD_CONFIG, "option_missing",
          "Type for monitor \"" ++ "m1" ++ "\" is not specified"⟩ : Report) ∈
          ownReports w.trace) ∧
      (twoTypes.configOptionExists ("m1" ++ ".type") > 1 →
        (⟨.BAD_CONFIG, "inconsistent",
          "Specified " ++ toString (twoTypes.configOptionExists ("m1" ++ ".type")) ++
            " types for monitor " ++ "m1"⟩ : Report) ∈ ownReports w.trace) ∧
      (∀ e ∈ w.trace, ∀ k, e.ev = .call k → k.isNew = true) ∧
      ∀ e ∈ w.trace, ∀ m, e.ev ≠ .call (.Monitor_init m) :=
  ⟨by decide, Or.inr (by decide),
    (monitor_type_count_error_no_init quiet 0 twoTypes "m1" (by decide)
      (Or.inr (by decide))).2⟩

theorem monitorImpl?_isSome_iff (tag : String) :
    (monitorImpl? tag).isSome = true ↔ tag ∈ ["clustsafe", "gperf", "random", "pagemigrate"] := by
  unfold monitorImpl?
  split_ifs <;> simp_all

theorem strategyImpl?_isSome_iff (tag : String) :
    (strategyImpl? tag).isSome = true ↔ tag ∈ ["autopin1", "noop", "compact", "scatter"] := by
  unfold strategyImpl?
  split_ifs <;> simp_all

theorem monitorEntry_of_no_report {config : Configuration} (ids : List String) {name : String}
    (h : monitorEntryReports config ids name = []) :
    config.configOptionExists (name ++ ".type") = 1 ∧
    config.getConfigOption (name ++ ".type") ∈ ["clustsafe", "gperf", "random", "pagemigrate"] ∧
    (monitorFor config name).isSome = true := by
  simp only [monitorEntryReports, List.append_eq_nil] at h
  obtain ⟨⟨_, h2⟩, h3⟩ := h
  have hsome : (monitorFor config name).isSome = true := by
    cases hm : monitorFor config name with
    | some m => rfl
    | none => simp [hm] at h3
  refine ⟨?_, ?_, hsome⟩
  · by_cases hle : config.configOptionExists (name ++ ".type") ≤ 0
    · simp [hle] at h2
    · by_cases hgt : config.configOptionExists (name ++ ".type") > 1
      · simp [hle, hgt] at h2
      · omega
  · rw [← monitorImpl?_isSome_iff]
    simpa [monitorFor] using hsome

theorem monitors_of_no_report {config : Configuration} (h : monitorReports config = []) :
    config.getConfigOptionList "PerformanceMonitors" ≠ [] ∧
    ∀ name ∈ config.getConfigOptionList "PerformanceMonitors",
      config.configOptionExists (name ++ ".type") = 1 ∧
      config.getConfigOption (name ++ ".type") ∈
        ["clustsafe", "gperf", "random", "pagemigrate"] ∧
      (monitorFor config name).isSome = true := by
  simp only [monitorReports, List.append_eq_nil] at h
  obtain ⟨h1, h2⟩ := h
  constructor
  · intro hempty
    simp [hempty] at h1
  · intro name hmem
    apply monitorEntry_of_no_report []
    simp only [monitorListReports, List.flatten_eq_nil_iff, List.mem_map] at h2
    exact h2 _ ⟨name, hmem, rfl⟩

theorem monitorsFor_length (config : Configuration) (names : List String)
    (h : ∀ name ∈ names, (monitorFor config name).isSome = true) :
    (monitorsFor config names).length = names.length := by
  induction names with
  | nil => rfl
  | cons name rest ih =>
    obtain ⟨m, hm⟩ := Option.isSome_iff_exists.mp (h name (List.mem_cons_self _ _))
    have := ih fun n hn => h n (List.mem_cons_of_mem _ hn)
    simp only [monitorsFor] at this ⊢
    simp [List.filterMap_cons, hm, this]

theorem strategy_of_no_report {config : Configuration} (h : strategyReports config = []) :
    config.configOptionExists "ControlStrategy" = 1 ∧
    config.getConfigOption "ControlStrategy" ∈ ["autopin1", "noop", "compact", "scatter"] := by
  simp only [strategyReports, List.append_eq_nil] at h
  obtain ⟨⟨h1, h2⟩, h3⟩ := h
  constructor
  · by_cases hle : config.configOptionExists "ControlStrategy" ≤ 0
    · simp [hle] at h1
    · by_cases hgt : config.configOptionExists "ControlStrategy" > 1
      · simp [hgt] at h2
      · omega
  · rw [← strategyImpl?_isSome_iff]
    cases hs : strategyImpl? (config.getConfigOption "ControlStrategy") with
    | some s => rfl
    | none => simp [strategyFor, hs] at h3

theorem loggers_of_no_report (tags : List String) (h : loggerReports tags = []) :
    (∀ t ∈ tags, t = "external") ∧ (loggersFor tags).length = tags.length := by
  induction tags with
  | nil => exact ⟨by simp, rfl⟩
  | cons t rest ih =>
    by_cases ht : t = "external"
    · have h' : loggerReports rest = [] := by
        simpa [loggerReports, List.find?_cons, ht] using h
      obtain ⟨ha, hl⟩ := ih h'
      refine ⟨?_, ?_⟩
      · intro x hx
        rcases List.mem_cons.mp hx with rfl | hx
        · exact ht
        · exact ha x hx
      · simp only [loggersFor, List.length_map] at hl ⊢
        simp [List.takeWhile_cons, ht, hl]
    · simp [loggerReports, List.find?_cons, ht] at h

/-- C10: if the six factory steps of a run on a fresh `Watchdog` leave the
context without error (the run passes the first gate), then the strategy slot
holds a strategy, the monitor set is not empty and has one instance for each
entry of `PerformanceMonitors`, each entry has exactly one type value and a
recognised tag, `ControlStrategy` is given exactly once with a recognised tag,
the logger set has one instance for each entry of `DataLoggers`, and the run
returns after calling `init()` on that strategy. -/
theorem gate1_passed_components_complete (cb : Collaborators) (counter n : Int)
    (config : Configuration) (wc : Watchdog)
    (hc : construct cb counter (Watchdog.new config) = some (n, wc))
    (hok : wc.inError = false) :
    (∃ st, wc.strategy = some st ∧
      ∃ o w, slot_watchdogRun cb counter (Watchdog.new config) = some (o, n, w) ∧
        o ≠ .haltedGate1 ∧ w.strategy = some st ∧
        Event.call (.ControlStrategy_init st) ∈ protocol w.trace) ∧
    wc.monitors ≠ [] ∧
    wc.monitors.length = (config.getConfigOptionList "PerformanceMonitors").length ∧
    (∀ name ∈ config.getConfigOptionList "PerformanceMonitors",
      config.configOptionExists (name ++ ".type") = 1 ∧
      config.getConfigOption (name ++ ".type") ∈
        ["clustsafe", "gperf", "random", "pagemigrate"]) ∧
    config.configOptionExists "ControlStrategy" = 1 ∧
    config.getConfigOption "ControlStrategy" ∈ ["autopin1", "noop", "compact", "scatter"] ∧
    wc.loggers.length = (config.getConfigOptionList "DataLoggers").length := by
  obtain ⟨c, evs, hc', f⟩ := construct_new cb counter config
  rw [hc'] at hc
  simp only [Option.some.injEq, Prod.mk.injEq] at hc
  obtain ⟨rfl, rfl⟩ := hc
  have hok' : c.isError = false := by simpa [Watchdog.inError, built] using hok
  have hrep := (f.not_error hok').2.2
  simp only [constructReports, List.append_eq_nil] at hrep
  obtain ⟨⟨hm, hs⟩, hl⟩ := hrep
  obtain ⟨hne, hent⟩ := monitors_of_no_report hm
  have hlen := monitorsFor_length config _ fun name h => (hent name h).2.2
  obtain ⟨st, hst⟩ := strategy_of_no_error (f.not_error hok').2.2
  refine ⟨⟨st, by simp [built, hst], ?_⟩, ?_, by simpa [built] using hlen,
    fun name h => ⟨(hent name h).1, (hent name h).2.1⟩, (strategy_of_no_report hs).1,
    (strategy_of_no_report hs).2, by simpa [built] using (loggers_of_no_report _ hl).2⟩
  · obtain ⟨c', evs', o, w, hc2, hrun, shape, hiff⟩ :=
      slot_watchdogRun_construct cb counter config
    rw [hc'] at hc2
    simp only [Option.some.injEq, Prod.mk.injEq, true_and] at hc2
    have hcc : c' = c := by
      have := congrArg Watchdog.context hc2
      simpa [built] using this.symm
    subst hcc
    have ho : o ≠ .haltedGate1 := fun h => by simp [hiff.mpr h] at hok'
    obtain ⟨_, hstw, _⟩ := shape.fields
    obtain ⟨_, st', pid, hst', hp⟩ := shape.trace
    have hst'' : st' = st := by
      have := hst' ho
      rw [hstw, hst] at this
      exact (Option.some.inj this).symm
    subst hst''
    refine ⟨o, w, hrun, ho, by rw [hstw, hst], ?_⟩
    rw [hp]
    cases o with
    | haltedGate1 => exact absurd rfl ho
    | haltedGate2 => simp [runProtocol, initCalls]
    | live => simp [runProtocol, initCalls]
  · intro hnil
    have : (monitorsFor config (config.getConfigOptionList "PerformanceMonitors")).length = 0 := by
      simpa [built] using congrArg List.length hnil
    rw [hlen] at this
    exact hne (List.length_eq_zero.mp this)

/-- C10, at scenario B with collaborators that report nothing. -/
theorem gate1_passed_components_complete_witness :
    construct quiet 0 (Watchdog.new scenarioB) = some (1, scenarioBBuilt) ∧
    scenarioBBuilt.inError = false ∧
    ((∃ st, scenarioBBuilt.strategy = some st ∧
      ∃ o w, slot_watchdogRun quiet 0 (Watchdog.new scenarioB) = some (o, 1, w) ∧
        o ≠ .haltedGate1 ∧ w.strategy = some st ∧
        Event.call (.ControlStrategy_init st) ∈ protocol w.trace) ∧
    scenarioBBuilt.monitors ≠ [] ∧
    scenarioBBuilt.monitors.length =
      (scenarioB.getConfigOptionList "PerformanceMonitors").length ∧
    (∀ name ∈ scenarioB.getConfigOptionList "PerformanceMonitors",
      scenarioB.configOptionExists (name ++ ".type") = 1 ∧
      scenarioB.getConfigOption (name ++ ".type") ∈
        ["clustsafe", "gperf", "random", "pagemigrate"]) ∧
    scenarioB.configOptionExists "ControlStrategy" = 1 ∧
    scenarioB.getConfigOption "ControlStrategy" ∈ ["autopin1", "noop", "compact", "scatter"] ∧
    scenarioBBuilt.loggers.length = (scenarioB.getConfigOptionList "DataLoggers").length) :=
  ⟨rfl, by decide,
    gate1_passed_components_complete quiet 0 1 scenarioB scenarioBBuilt rfl (by decide)⟩

theorem monitorFor_eq (config : Configuration) (name : String) :
    monitorFor config name =
      if config.getConfigOption (name ++ ".type") = "clustsafe" then some ⟨.ClustSafe, name⟩
      else if config.getConfigOption (name ++ ".type") = "gperf" then some ⟨.GPerf, name⟩
      else if config.getConfigOption (name ++ ".type") = "random" then some ⟨.Random, name⟩
      else if config.getConfigOption (name ++ ".type") = "pagemigrate" then
        some ⟨.PageMigrate, name⟩
      else none := by
  unfold monitorFor monitorImpl?
  split_ifs <;> rfl

theorem unsupported_monitor_report_mem {config : Configuration} {name : String}
    (hmem : name ∈ config.getConfigOptionList "PerformanceMonitors")
    (htag : config.getConfigOption (name ++ ".type") ∉
      ["clustsafe", "gperf", "random", "pagemigrate"]) :
    (⟨.UNSUPPORTED, "critical",
      "Performance monitor type \"" ++ config.getConfigOption (name ++ ".type") ++
        "\" is not supported"⟩ : Report) ∈ monitorReports config := by
  have hnone : monitorFor config name = none := by
    cases hm : monitorFor config name with
    | none => rfl
    | some m =>
      have : (monitorImpl? (config.getConfigOption (name ++ ".type"))).isSome = true := by
        simp only [monitorFor, Option.map_eq_some'] at hm
        obtain ⟨impl, himpl, _⟩ := hm
        simp [himpl]
      exact absurd ((monitorImpl?_isSome_iff _).mp this) htag
  simp only [monitorReports, monitorListReports, List.mem_append, List.mem_flatten,
    List.mem_map]
  exact Or.inr ⟨_, ⟨name, hmem, rfl⟩, by simp [monitorEntryReports, hnone]⟩

theorem createPerformanceMonitors_empty (cb : Collaborators) {w : Watchdog}
    {c : AutopinContext} (hc : w.context = some c)
    (hempty : w.config.getConfigOptionList "PerformanceMonitors" = []) :
    createPerformanceMonitors cb w =
      some (w.adv (c.report ⟨.BAD_CONFIG, "option_missing", "No performance monitor configured"⟩)
        (reportEntries c w.connections
          (.report ⟨.BAD_CONFIG, "option_missing", "No performance monitor configured"⟩))) := by
  simp [createPerformanceMonitors, hempty, Watchdog.report, record_eq hc,
    createPerformanceMonitorsLoop]

/-- C7: on a `Watchdog` with a context and an empty monitor set,
`createPerformanceMonitors` returns with the monitor set equal, in list order,
to one instance for each entry of `PerformanceMonitors` whose type value is
clustsafe, gperf, random or pagemigrate, of the class of that tag and with the
name of the entry; for each entry with another type value it reports an
`UNSUPPORTED` error of category `critical` and adds no instance; and for an
empty list the one error reported is `BAD_CONFIG` of category
`option_missing`, the monitor set staying empty. -/
theorem createPerformanceMonitors_builds (cb : Collaborators) (w : Watchdog)
    (c : AutopinContext) (hc : w.context = some c) (hm : w.monitors = []) :
    ∃ w' evs, createPerformanceMonitors cb w = some w' ∧ w'.trace = w.trace ++ evs ∧
      w'.monitors = (w.config.getConfigOptionList "PerformanceMonitors").filterMap (fun name =>
        if w.config.getConfigOption (name ++ ".type") = "clustsafe" then
          some ⟨.ClustSafe, name⟩
        else if w.config.getConfigOption (name ++ ".type") = "gperf" then some ⟨.GPerf, name⟩
        else if w.config.getConfigOption (name ++ ".type") = "random" then
          some ⟨.Random, name⟩
        else if w.config.getConfigOption (name ++ ".type") = "pagemigrate" then
          some ⟨.PageMigrate, name⟩
        else none) ∧
      (∀ name ∈ w.config.getConfigOptionList "PerformanceMonitors",
        w.config.getConfigOption (name ++ ".type") ∉
          ["clustsafe", "gperf", "random", "pagemigrate"] →
        (⟨.UNSUPPORTED, "critical",
          "Performance monitor type \"" ++ w.config.getConfigOption (name ++ ".type") ++
            "\" is not supported"⟩ : Report) ∈ ownReports evs) ∧
      (w.config.getConfigOptionList "PerformanceMonitors" = [] →
        w'.monitors = [] ∧
        w'.context = some (c.report
          ⟨.BAD_CONFIG, "option_missing", "No performance monitor configured"⟩) ∧
        (evs.map Entry.ev).filter Event.isReport =
          [.report ⟨.BAD_CONFIG, "option_missing", "No performance monitor configured"⟩]) := by
  obtain ⟨c', evs, hrun, f⟩ := createPerformanceMonitors_eff cb hc
  refine ⟨_, evs, hrun, rfl, ?_, ?_, ?_⟩
  · simp only [hm, List.nil_append, monitorsFor]
    congr 1
    funext name
    exact monitorFor_eq w.config name
  · intro name hmem htag
    rw [f.own]
    exact unsupported_monitor_report_mem hmem htag
  · intro hempty
    have h2 := createPerformanceMonitors_empty cb hc hempty
    rw [hrun] at h2
    have hw := Option.some.inj h2
    refine ⟨by simp [hm, hempty, monitorsFor], ?_, ?_⟩
    · have := congrArg Watchdog.context hw
      simpa using this
    · have := congrArg Watchdog.trace hw
      simp only [adv_trace, List.append_cancel_left_eq] at this
      rw [this]
      unfold reportEntries
      split_ifs <;> simp [Event.isReport]

/-- C7, at scenario B on a fresh `Watchdog` after `createContext`. -/
theorem createPerformanceMonitors_builds_witness :
    (withContext scenarioB).context = some (AutopinContext.new "Watchdog 0") ∧
    (withContext scenarioB).monitors = [] ∧
    ∃ w' evs, createPerformanceMonitors quiet (withContext scenarioB) = some w' ∧
      w'.trace = (withContext scenarioB).trace ++ evs ∧
      w'.monitors = [⟨.Random, "m1"⟩] :=
  ⟨by decide, by decide, by
    obtain ⟨w', evs, h1, h2, h3, _⟩ := createPerformanceMonitors_builds quiet
      (withContext scenarioB) (AutopinContext.new "Watchdog 0") (by decide) (by decide)
    exact ⟨w', evs, h1, h2, h3.trans (by decide)⟩⟩

theorem loggerReports_eq (tags : List String) :
    loggerReports tags =
      match tags.find? fun t => t ≠ "external" with
      | some t => [⟨.UNSUPPORTED, "critical", "Data logger \"" ++ t ++ "\" is not supported"⟩]
      | none => [] := by
  unfold loggerReports
  cases tags.find? fun t => t ≠ "external" <;> rfl

/-- C9: on a `Watchdog` with a context and an empty logger set,
`createDataLoggers` stops at the first entry of `DataLoggers` that is not
`external`: the logger set holds one `External` logger for each entry of the
longest run of `external` entries at the head of the list and exactly those
were constructed, the `Watchdog` reports one `UNSUPPORTED` error of category
`critical`, for that first entry, if the list has such an entry and none
otherwise; nothing is constructed or reported for the entries after it. -/
theorem createDataLoggers_stops_at_first_unsupported (cb : Collaborators) (w : Watchdog)
    (c : AutopinContext) (hc : w.context = some c) (hl : w.loggers = []) :
    ∃ w' evs, createDataLoggers cb w = some w' ∧ w'.trace = w.trace ++ evs ∧
      w'.loggers = ((w.config.getConfigOptionList "DataLoggers").takeWhile
        fun t => t = "external").map (fun _ => ⟨.External⟩) ∧
      protocol evs = ((w.config.getConfigOptionList "DataLoggers").takeWhile
        fun t => t = "external").map (fun _ => .call (.Logger_new ⟨.External⟩)) ∧
      ownReports evs =
        (match (w.config.getConfigOptionList "DataLoggers").find? fun t => t ≠ "external" with
        | some t =>
          [⟨.UNSUPPORTED, "critical", "Data logger \"" ++ t ++ "\" is not supported"⟩]
        | none => []) ∧
      ((∃ t ∈ w.config.getConfigOptionList "DataLoggers", t ≠ "external") →
        (ownReports evs).length = 1) ∧
      ((∀ t ∈ w.config.getConfigOptionList "DataLoggers", t = "external") →
        ownReports evs = []) := by
  obtain ⟨c', evs, hrun, f⟩ := createDataLoggers_eff cb hc
  have hown := f.own.trans (loggerReports_eq _)
  refine ⟨_, evs, hrun, rfl, by simp [hl, loggersFor], ?_, hown, ?_, ?_⟩
  · rw [f.prot]
    simp [loggersFor]
  · rintro ⟨t, ht, hne⟩
    rw [hown]
    cases hfind : (w.config.getConfigOptionList "DataLoggers").find? fun t => t ≠ "external" with
    | some t' => rfl
    | none =>
      have := List.find?_eq_none.mp hfind t ht
      simp [hne] at this
  · intro hall
    rw [hown]
    cases hfind : (w.config.getConfigOptionList "DataLoggers").find? fun t => t ≠ "external" with
    | none => rfl
    | some t' =>
      have hmem := List.mem_of_find?_eq_some hfind
      have hp := List.find?_some hfind
      simp [hall t' hmem] at hp

/-- C9, at a list whose second entry is not `external`: one logger is made,
one error is reported, the third entry is not looked at. -/
theorem createDataLoggers_stops_at_first_unsupported_witness :
    (withContext mixedLoggers).context = some (AutopinContext.new "Watchdog 0") ∧
    (withContext mixedLoggers).loggers = [] ∧
    ∃ w' evs, createDataLoggers quiet (withContext mixedLoggers) = some w' ∧
      w'.trace = (withContext mixedLoggers).trace ++ evs ∧
      w'.loggers = [⟨.External⟩] ∧
      protocol evs = [.call (.Logger_new ⟨.External⟩)] ∧
      ownReports evs =
        [⟨.UNSUPPORTED, "critical", "Data logger \"csv\" is not supported"⟩] :=
  ⟨by decide, by decide, by
    obtain ⟨w', evs, h1, h2, h3, h4, h5, _⟩ := createDataLoggers_stops_at_first_unsupported
      quiet (withContext mixedLoggers) (AutopinContext.new "Watchdog 0") (by decide)
      (by decide)
    exact ⟨w', evs, h1, h2, h3.trans (by decide), h4.trans (by decide),
      h5.trans (by decide)⟩⟩

theorem collaboratorCalls_eq_filter (evs : List Entry) :
    collaboratorCalls evs = (protocol evs).filter Event.isCollaboratorCall := by
  simp only [collaboratorCalls, protocol, List.filter_filter]
  congr 1
  funext e
  cases e <;> rfl

theorem filter_map_call {α : Type} (f : α → Call) (xs : List α) :
    (xs.map fun x => Event.call (f x)).filter Event.isCollaboratorCall =
      xs.map fun x => Event.call (f x) := by
  induction xs with
  | nil => rfl
  | cons x xs ih => simp [List.filter_cons, Event.isCollaboratorCall, ih]

theorem filter_map_connect (ks : List Connection) :
    (ks.map fun k => Event.connect k).filter Event.isCollaboratorCall =
      ks.map fun k => Event.connect k := by
  induction ks with
  | nil => rfl
  | cons x xs ih => simp [List.filter_cons, Event.isCollaboratorCall, ih]

theorem filter_rebind (pid : Int) (ms : List Monitor) :
    ((ms.map fun m => [Event.call (.Monitor_init m),
        .call (.Monitor_setObservedProcessPid m pid)]).flatten).filter
        Event.isCollaboratorCall =
      (ms.map fun m => [Event.call (.Monitor_init m),
        .call (.Monitor_setObservedProcessPid m pid)]).flatten := by
  induction ms with
  | nil => rfl
  | cons x xs ih => simp [List.filter_cons, Event.isCollaboratorCall, ih]

theorem filter_constructCalls (config : Configuration) :
    (constructCalls config).filter Event.isCollaboratorCall = constructCalls config := by
  rw [List.filter_eq_self]
  intro ev hev
  obtain ⟨k, rfl, _⟩ := isNew_of_mem_constructCalls hev
  rfl

theorem not_mem_of_not_mem_protocol {evs : List Entry} {e : Entry}
    (hp : e.ev.isProtocol = true) (h : e.ev ∉ protocol evs) : e ∉ evs :=
  fun he => h (mem_protocol he hp)

theorem checkpoint_not_mem_constructCalls (config : Configuration) (g : Nat) :
    Event.checkpoint g ∉ constructCalls config := by
  intro h
  obtain ⟨k, hk, _⟩ := isNew_of_mem_constructCalls h
  cases hk

theorem checkpoint_not_mem_initCalls (w : Watchdog) (st : ControlStrategy) (g : Nat) :
    Event.checkpoint g ∉ initCalls w st := by
  simp [initCalls]

/-- The outcome of a run can be read off the two gate entries of the trace. -/
theorem RunShape.gates {cb : Collaborators} {config : Configuration} {counter : Int} {o : Outcome} {w : Watchdog}
    (h : RunShape cb config counter o w) :
    (⟨true, .checkpoint 1⟩ ∈ w.trace ↔ o = .haltedGate1) ∧
    (⟨true, .checkpoint 2⟩ ∈ w.trace ↔ o = .haltedGate2) ∧
    (⟨false, .checkpoint 2⟩ ∈ w.trace ↔ o = .live) ∧
    (o ≠ .haltedGate1 → ⟨false, .checkpoint 1⟩ ∈ w.trace) := by
  have key : ∀ (c c' : AutopinContext) (evs : List Entry) (P : List Event) (O : List Report)
      (b : Bool) (g : Nat), Eff c c' evs P O → Event.checkpoint g ∉ P →
      (⟨b, .checkpoint g⟩ : Entry) ∉ evs := by
    intro c c' evs P O b g f hP
    exact not_mem_of_not_mem_protocol rfl (by rw [f.prot]; exact hP)
  cases h with
  | gate1 c evs hb h0 herr =>
    have a := fun b g => key _ _ _ _ _ b g h0 (checkpoint_not_mem_constructCalls config g)
    simp [built, a, errorEdge]
  | gate2 c evs st c1 evs1 hb h0 hok hst h1 herr =>
    have a := fun b g => key _ _ _ _ _ b g h0 (checkpoint_not_mem_constructCalls config g)
    have a1 := fun b g => key _ _ _ _ _ b g h1 (checkpoint_not_mem_initCalls _ st g)
    simp [built, a, a1, errorEdge]
  | live c evs st c1 evs1 cm mid c2 tail pid hb h0 hok hst h1 hok1 h2 hpid h3 =>
    have a := fun b g => key _ _ _ _ _ b g h0 (checkpoint_not_mem_constructCalls config g)
    have a1 := fun b g => key _ _ _ _ _ b g h1 (checkpoint_not_mem_initCalls _ st g)
    have a2 : ∀ (b : Bool) (g : Nat), (⟨b, .checkpoint g⟩ : Entry) ∉ mid := by
      intro b g hmem
      exact key _ _ _ _ _ b g h2 (by simp) (List.mem_cons_of_mem _ hmem)
    have a3 := fun b g => key _ _ _ _ _ b g h3 (show Event.checkpoint g ∉ _ by simp)
    simp [built, a, a1, a2, a3, errorEdge]

/-- C5: if in a run of `slot_watchdogRun` on a fresh `Watchdog` the context is
not in error at the second gate, the run goes live and its calls on
collaborators after the factory steps are, in this order: `service->init()`;
`init()` of every monitor in the order of the monitor set; `process->init()`;
`strategy->init()`; `init()` of every logger in the order of the logger set;
the nine connections of `createComponentConnections`; `process->start()`;
`process->getPid()`; then for every monitor in order `init()` and
`setObservedProcessPid(pid)` with the pid `getPid()` returned at that point of
the trace; then the ready signal. -/
theorem live_run_call_sequence (cb : Collaborators) (counter n : Int) (config : Configuration)
    (o : Outcome) (w : Watchdog)
    (h : slot_watchdogRun cb counter (Watchdog.new config) = some (o, n, w))
    (hgate : ⟨false, .checkpoint 2⟩ ∈ w.trace) :
    o = .live ∧
    ∃ wc st before after, construct cb counter (Watchdog.new config) = some (n, wc) ∧
      wc.strategy = some st ∧ w.monitors = wc.monitors ∧ w.loggers = wc.loggers ∧
      w.trace = before ++ after ∧
      collaboratorCalls before = collaboratorCalls wc.trace ++
        ([.call .OSServices_init] ++ wc.monitors.map (fun m => .call (.Monitor_init m)) ++
          [.call .ObservedProcess_init, .call (.ControlStrategy_init st)] ++
          wc.loggers.map (fun l => .call (.Logger_init l)) ++
          topology.map (fun k => .connect k) ++
          [.call .ObservedProcess_start, .call .ObservedProcess_getPid]) ∧
      collaboratorCalls after =
        (wc.monitors.map fun m =>
          [Event.call (.Monitor_init m),
            .call (.Monitor_setObservedProcessPid m (cb.getPid before))]).flatten ++
        [.sig_watchdogReady] := by
  obtain ⟨hn, shape⟩ := shape_of_run h
  have ho := shape.gates.2.2.1.mp hgate
  subst ho
  refine ⟨rfl, ?_⟩
  cases shape with
  | live c evs st c1 evs1 cm mid c2 tail pid hb h0 hok hst h1 hok1 h2 hpid h3 =>
    have hp := h2.prot
    simp only [protocol_cons, Event.isProtocol, if_true] at hp
    have hp' : protocol mid = [.call .ObservedProcess_getPid] := (List.cons.inj hp).2
    subst hn
    refine ⟨built config c evs, st, (built config c evs).trace ++ (⟨false, .checkpoint 1⟩ ::
        evs1 ++ ⟨false, .checkpoint 2⟩ :: ((topology.map fun k => ⟨false, .connect k⟩) ++
          ⟨false, .info "Connecting to the observed process ..."⟩ ::
          ⟨false, .call .ObservedProcess_start⟩ :: mid)), tail, hb, hst, rfl, rfl, ?_, ?_, ?_⟩
    · simp [Watchdog.adv]
    · rw [collaboratorCalls_eq_filter, collaboratorCalls_eq_filter]
      simp only [built, protocol_append, protocol_cons, Event.isProtocol, if_true,
        Bool.false_eq_true, if_false, h0.prot, h1.prot, hp', protocol_connects, initCalls,
        List.filter_append, List.filter_cons, Event.isCollaboratorCall, filter_map_call,
        filter_map_connect, filter_constructCalls, List.filter_nil, List.append_assoc,
        List.cons_append, List.nil_append, List.append_nil]
    · rw [collaboratorCalls_eq_filter, h3.prot, ← hpid]
      simp only [List.filter_append, filter_rebind, List.filter_cons, Event.isCollaboratorCall,
        if_true, List.filter_nil]

/-- C5, at scenario B with collaborators that report nothing and a process of
pid 4242: the run goes live, monitor `m1` is handed the pid, and the ready
signal is emitted with the strategy connected to it. -/
theorem live_run_call_sequence_witness :
    slot_watchdogRun quiet 0 (Watchdog.new scenarioB) = some (.live, 1, scenarioBLive) ∧
    ⟨false, .checkpoint 2⟩ ∈ scenarioBLive.trace ∧
    (∃ wc st before after, construct quiet 0 (Watchdog.new scenarioB) = some (1, wc) ∧
      wc.strategy = some st ∧ scenarioBLive.monitors = wc.monitors ∧
      scenarioBLive.loggers = wc.loggers ∧ scenarioBLive.trace = before ++ after ∧
      collaboratorCalls before = collaboratorCalls wc.trace ++
        ([.call .OSServices_init] ++ wc.monitors.map (fun m => .call (.Monitor_init m)) ++
          [.call .ObservedProcess_init, .call (.ControlStrategy_init st)] ++
          wc.loggers.map (fun l => .call (.Logger_init l)) ++
          topology.map (fun k => .connect k) ++
          [.call .ObservedProcess_start, .call .ObservedProcess_getPid]) ∧
      collaboratorCalls after =
        (wc.monitors.map fun m =>
          [Event.call (.Monitor_init m),
            .call (.Monitor_setObservedProcessPid m (quiet.getPid before))]).flatten ++
        [.sig_watchdogReady]) ∧
    collaboratorCalls scenarioBLive.trace =
      [.connect errorEdge, .call .OSServices_new, .call (.Monitor_new ⟨.Random, "m1"⟩),
        .call .ObservedProcess_new, .call (.ControlStrategy_new ⟨.Noop⟩),
        .call .OSServices_init, .call (.Monitor_init ⟨.Random, "m1"⟩),
        .call .ObservedProcess_init, .call (.ControlStrategy_init ⟨.Noop⟩)] ++
      topology.map (fun k => .connect k) ++
      [.call .ObservedProcess_start, .call .ObservedProcess_getPid,
        .call (.Monitor_init ⟨.Random, "m1"⟩),
        .call (.Monitor_setObservedProcessPid ⟨.Random, "m1"⟩ 4242), .sig_watchdogReady] ∧
    (⟨.watchdog, "sig_watchdogReady()", .strategy, "slot_watchdogReady()"⟩ : Connection) ∈
      scenarioBLive.connections :=
  ⟨rfl, by decide,
    (live_run_call_sequence quiet 0 1 scenarioB .live scenarioBLive rfl (by decide)).2,
    by decide, by decide⟩

theorem runProtocol_ready {config : Configuration} {w : Watchdog} {st : ControlStrategy}
    {pid : Int} {o : Outcome} (h : Event.sig_watchdogReady ∈ runProtocol config w st pid o) :
    o = .live := by
  have hc : Event.sig_watchdogReady ∉ constructCalls config := by
    intro hm
    obtain ⟨k, hk, _⟩ := isNew_of_mem_constructCalls hm
    cases hk
  cases o with
  | live => rfl
  | haltedGate1 => simp [runProtocol, hc] at h
  | haltedGate2 => simp [runProtocol, hc, initCalls] at h

theorem runProtocol_start {config : Configuration} {w : Watchdog} {st : ControlStrategy}
    {pid : Int} {o : Outcome}
    (h : Event.call .ObservedProcess_start ∈ runProtocol config w st pid o) : o = .live := by
  have hc : Event.call .ObservedProcess_start ∉ constructCalls config := by
    intro hm
    obtain ⟨k, hk, hnew⟩ := isNew_of_mem_constructCalls hm
    cases hk
    simp [Call.isNew] at hnew
  cases o with
  | live => rfl
  | haltedGate1 => simp [runProtocol, hc] at h
  | haltedGate2 => simp [runProtocol, hc, initCalls] at h

theorem RunShape.start_flag {cb : Collaborators} {config : Configuration} {counter : Int}
    {o : Outcome} {w : Watchdog} (h : RunShape cb config counter o w) :
    ∀ e ∈ w.trace, e.ev = .call .ObservedProcess_start → e.inError = false := by
  intro e he hev
  obtain ⟨_, st, pid, _, hp⟩ := h.trace
  have ho : o = .live := runProtocol_start (hp ▸ hev ▸ mem_protocol he (by rw [hev]; rfl))
  subst ho
  cases h with
  | live c evs st c1 evs1 cm mid c2 tail pid hb h0 hok hst h1 hok1 h2 hpid h3 =>
    have key : ∀ (c c' : AutopinContext) (evs : List Entry) (P : List Event) (O : List Report),
        Eff c c' evs P O → Event.call .ObservedProcess_start ∉ P → e ∉ evs := by
      intro c c' evs P O f hP hmem
      exact hP (f.prot ▸ hev ▸ mem_protocol hmem (by rw [hev]; rfl))
    have a0 := key _ _ _ _ _ h0 (by
      intro hm
      obtain ⟨k, hk, hnew⟩ := isNew_of_mem_constructCalls hm
      cases hk
      simp [Call.isNew] at hnew)
    have a1 := key _ _ _ _ _ h1 (by simp [initCalls])
    have a3 := key _ _ _ _ _ h3 (by simp)
    have hp2 := h2.prot
    simp only [protocol_cons, Event.isProtocol, if_true] at hp2
    have a2 : e ∉ mid := by
      intro hmem
      have := mem_protocol hmem (by rw [hev]; rfl)
      rw [(List.cons.inj hp2).2, hev] at this
      simp at this
    simp only [built, adv_trace, List.mem_append, List.mem_cons, List.mem_map] at he
    rcases he with (rfl | he) | (rfl | he) | rfl | ⟨k, _, rfl⟩ | rfl | rfl | he | he
    · cases hev
    · exact absurd he a0
    · cases hev
    · exact absurd he a1
    · cases hev
    · cases hev
    · cases hev
    · rfl
    · exact absurd he a2
    · exact absurd he a3

/-- C4 as stated fails: in scenario B with a `process->start()` that reports
an error, the run goes on and emits the ready signal while the context is in
error state. -/
theorem ready_emitted_in_error_state :
    slot_watchdogRun startFails 0 (Watchdog.new scenarioB) = some (.live, 1, startFailsLive) ∧
    startFailsLive.inError = true ∧
    (⟨true, .sig_watchdogReady⟩ : Entry) ∈ startFailsLive.trace :=
  ⟨rfl, by decide, by decide⟩

/-- C4, amended: every run of `slot_watchdogRun` on a fresh `Watchdog` returns;
`process->start()` is never called while the context is in error; the ready
signal is emitted only in a run that found the context without error at both
gates; and when the context is in error at the first gate the run makes
constructor calls only, no `init()` and no `start()`. -/
theorem start_never_in_error_ready_only_past_gates (cb : Collaborators) (counter : Int)
    (config : Configuration) :
    ∃ o w, slot_watchdogRun cb counter (Watchdog.new config) =
        some (o, wrapInt32 (counter + 1), w) ∧
      (∀ e ∈ w.trace, e.ev = .call .ObservedProcess_start → e.inError = false) ∧
      (∀ e ∈ w.trace, e.ev = .sig_watchdogReady →
        (⟨false, .checkpoint 1⟩ : Entry) ∈ w.trace ∧ (⟨false, .checkpoint 2⟩ : Entry) ∈ w.trace ∧
        (⟨true, .checkpoint 1⟩ : Entry) ∉ w.trace ∧ (⟨true, .checkpoint 2⟩ : Entry) ∉ w.trace) ∧
      ((⟨true, .checkpoint 1⟩ : Entry) ∈ w.trace →
        ∀ e ∈ w.trace, ∀ k, e.ev = .call k → k.isNew = true) := by
  obtain ⟨o, w, hrun, shape⟩ := slot_watchdogRun_new cb counter config
  obtain ⟨g1, g2, g3, g4⟩ := shape.gates
  refine ⟨o, w, hrun, shape.start_flag, ?_, ?_⟩
  · intro e he hev
    obtain ⟨_, st, pid, _, hp⟩ := shape.trace
    have ho : o = .live := runProtocol_ready (hp ▸ hev ▸ mem_protocol he (by rw [hev]; rfl))
    subst ho
    refine ⟨g4 (by simp), g3.mpr rfl, fun h => ?_, fun h => ?_⟩
    · simpa using g1.mp h
    · simpa using g2.mp h
  · intro h1
    have ho := g1.mp h1
    subst ho
    exact gate1_only_constructors shape

/-- C6 as stated fails: in scenario A the run halts at the first gate and the
edge from the context's `sig_error()` to `sig_watchdogStop()`, made in
`createContext`, is registered at the halt; the stop signal went through it. -/
theorem error_edge_registered_at_halt :
    slot_watchdogRun quiet 0 (Watchdog.new scenarioA) =
      some (.haltedGate1, 1, scenarioAHalted) ∧
    (⟨.context, "sig_error()", .watchdog, "sig_watchdogStop()"⟩ : Connection) ∈
      scenarioAHalted.connections ∧
    (⟨true, .sig_watchdogStop⟩ : Entry) ∈ scenarioAHalted.trace :=
  ⟨rfl, by decide, by decide⟩

/-- C6, amended: when a run of `slot_watchdogRun` on a fresh `Watchdog` halts
at the first or at the second gate, `process->start()` has not been called and
none of the nine connections of `createComponentConnections` is registered;
the one connection registered is the edge from the context's `sig_error()` to
`sig_watchdogStop()` made in `createContext`. -/
theorem halt_leaves_only_error_edge (cb : Collaborators) (counter n : Int)
    (config : Configuration) (o : Outcome) (w : Watchdog)
    (h : slot_watchdogRun cb counter (Watchdog.new config) = some (o, n, w))
    (hhalt : o ≠ .live) :
    (∀ e ∈ w.trace, e.ev ≠ .call .ObservedProcess_start) ∧
    w.connections = [⟨.context, "sig_error()", .watchdog, "sig_watchdogStop()"⟩] ∧
    (∀ k ∈ topology, k ∉ w.connections) ∧
    ∀ e ∈ w.trace, ∀ k, e.ev = .connect k → k ∉ topology := by
  obtain ⟨_, shape⟩ := shape_of_run h
  obtain ⟨_, _, _, _, hconn, _⟩ := shape.fields
  obtain ⟨_, st, pid, _, hp⟩ := shape.trace
  simp only [hhalt, if_false] at hconn
  have hc : ∀ k, Event.connect k ∉ constructCalls config := by
    intro k hm
    obtain ⟨k', hk, _⟩ := isNew_of_mem_constructCalls hm
    cases hk
  refine ⟨?_, hconn, ?_, ?_⟩
  · intro e he hev
    exact hhalt (runProtocol_start (hp ▸ hev ▸ mem_protocol he (by rw [hev]; rfl)))
  · rw [hconn]
    decide
  · intro e he k hev
    have hm := mem_protocol he (by rw [hev]; rfl)
    rw [hp, hev] at hm
    have hk : k = errorEdge := by
      cases o with
      | live => exact absurd rfl hhalt
      | haltedGate1 => simpa [runProtocol, hc] using hm
      | haltedGate2 => simpa [runProtocol, hc, initCalls] using hm
    rw [hk]
    decide

/-- C6 amended, at scenario A. -/
theorem halt_leaves_only_error_edge_witness :
    slot_watchdogRun quiet 0 (Watchdog.new scenarioA) =
      some (.haltedGate1, 1, scenarioAHalted) ∧
    Outcome.haltedGate1 ≠ Outcome.live ∧
    ((∀ e ∈ scenarioAHalted.trace, e.ev ≠ .call .ObservedProcess_start) ∧
    scenarioAHalted.connections =
      [⟨.context, "sig_error()", .watchdog, "sig_watchdogStop()"⟩] ∧
    (∀ k ∈ topology, k ∉ scenarioAHalted.connections) ∧
    ∀ e ∈ scenarioAHalted.trace, ∀ k, e.ev = .connect k → k ∉ topology) :=
  ⟨rfl, by decide,
    halt_leaves_only_error_edge quiet 0 1 scenarioA .haltedGate1 scenarioAHalted rfl
      (by decide)⟩

/-- C1 fails on the code: for the list `m1`, `m1` (scenario D) no error is
reported by `createPerformanceMonitors`, two monitors named `m1` are built, and
the run goes live with the context free of errors. `existing_ids`, the list
the names are looked up in, is never added to. -/
theorem duplicate_identifier_not_reported :
    (createPerformanceMonitors quiet (withContext scenarioD)).map
      (fun w => (w.monitors, ownReports w.trace, w.inError)) =
      some ([⟨.Random, "m1"⟩, ⟨.Random, "m1"⟩], [], false) ∧
    slot_watchdogRun quiet 0 (Watchdog.new scenarioD) = some (.live, 1, scenarioDLive) ∧
    scenarioDLive.monitors = [⟨.Random, "m1"⟩, ⟨.Random, "m1"⟩] ∧
    ownReports scenarioDLive.trace = [] ∧ scenarioDLive.inError = false :=
  ⟨by decide, rfl, by decide, by decide, by decide⟩

/-! ## Decimal numerals -/

theorem digitChar_decimal (k : Nat) (hk : k < 10) :
    (Nat.digitChar k).toNat - 48 = k ∧ Nat.digitChar k ≠ '-' := by
  interval_cases k <;> exact ⟨by decide, by decide⟩

theorem toDigitsCore_decimal (fuel : Nat) :
    ∀ (n : Nat) (ds : List Char), n < fuel →
    ∃ front, Nat.toDigitsCore 10 fuel n ds = front ++ ds ∧ decodeDigits front = n ∧
      front ≠ [] ∧ ∀ c ∈ front, c ≠ '-' := by
  induction fuel with
  | zero => intro n ds h; omega
  | succ fuel ih =>
    intro n ds h
    have hd := digitChar_decimal (n % 10) (Nat.mod_lt _ (by decide))
    by_cases h0 : n / 10 = 0
    · refine ⟨[Nat.digitChar (n % 10)], by simp [Nat.toDigitsCore, h0], ?_, by simp, ?_⟩
      · simp only [decodeDigits, List.foldl_cons, List.foldl_nil, hd.1]
        omega
      · intro c hc
        rw [List.mem_singleton.mp hc]
        exact hd.2
    · obtain ⟨front, hf, hv, _, hc⟩ := ih (n / 10) (Nat.digitChar (n % 10) :: ds) (by omega)
      refine ⟨front ++ [Nat.digitChar (n % 10)], by simp [Nat.toDigitsCore, h0, hf], ?_,
        by simp, ?_⟩
      · simp only [decodeDigits] at hv
        simp only [decodeDigits, List.foldl_append, List.foldl_cons, List.foldl_nil, hv, hd.1]
        omega
      · intro c hmem
        rcases List.mem_append.mp hmem with h1 | h1
        · exact hc c h1
        · rw [List.mem_singleton.mp h1]
          exact hd.2

theorem repr_decimal (n : Nat) :
    decodeDigits (Nat.repr n).data = n ∧ (Nat.repr n).data ≠ [] ∧
      ∀ c ∈ (Nat.repr n).data, c ≠ '-' := by
  obtain ⟨front, hf, hv, hne, hc⟩ := toDigitsCore_decimal (n + 1) n [] (by omega)
  have : (Nat.repr n).data = front := by
    simp [Nat.repr, Nat.toDigits, hf, List.asString]
  rw [this]
  exact ⟨hv, hne, hc⟩

theorem decodeInt_toString (i : Int) : decodeInt (toString i).data = i := by
  cases i with
  | ofNat m =>
    obtain ⟨hv, hne, hc⟩ := repr_decimal m
    show decodeInt (Nat.repr m).data = _
    cases hdata : (Nat.repr m).data with
    | nil => exact absurd hdata hne
    | cons c rest =>
      have hcne : c ≠ '-' := hc c (by rw [hdata]; exact List.mem_cons_self _ _)
      rw [hdata] at hv
      simp [decodeInt, hcne, hv]
  | negSucc m =>
    obtain ⟨hv, _, _⟩ := repr_decimal (m + 1)
    show decodeInt ("-" ++ Nat.repr (m + 1)).data = _
    have : ("-" ++ Nat.repr (m + 1)).data = '-' :: (Nat.repr (m + 1)).data := by
      simp [String.data_append]
    rw [this]
    simp only [decodeInt, if_true, hv]
    rfl

theorem toString_int_injective {a b : Int} (h : toString a = toString b) : a = b := by
  have := congrArg (fun s : String => decodeInt s.data) h
  simpa [decodeInt_toString] using this

theorem default_name_injective {a b : Int}
    (h : "Watchdog " ++ toString a = "Watchdog " ++ toString b) : a = b := by
  apply toString_int_injective
  have := congrArg String.data h
  simp only [String.data_append, List.append_cancel_left_eq] at this
  exact String.ext this

theorem wrapInt32_succ {counter : Int} (hlo : -2147483648 ≤ counter)
    (hhi : counter < 2147483647) : wrapInt32 (counter + 1) = counter + 1 := by
  unfold wrapInt32
  omega

theorem wrapInt32_range (x : Int) : -2147483648 ≤ wrapInt32 x ∧ wrapInt32 x ≤ 2147483647 := by
  unfold wrapInt32
  omega

theorem runSeries_spec (cb : Collaborators) (configs : List Configuration) :
    ∀ counter : Int, -2147483648 ≤ counter → counter + configs.length ≤ 2147483648 →
    ∀ (i : Nat) (config : Configuration), configs[i]? = some config →
    ∃ w, (runSeries cb counter configs)[i]? = some (counter + i, w) ∧
      w.scopeName = contextName config (counter + i) := by
  induction configs with
  | nil => intro counter _ _ i config h; simp at h
  | cons first rest ih =>
    intro counter hlo hhi i config h
    obtain ⟨o, w, hrun, shape⟩ := slot_watchdogRun_new cb counter first
    obtain ⟨_, _, _, _, _, c, hc, hname, _⟩ := shape.fields
    cases i with
    | zero =>
      simp only [List.getElem?_cons_zero, Option.some.injEq] at h
      subst h
      exact ⟨w, by simp [runSeries, hrun], by simp [Watchdog.scopeName, hc, hname]⟩
    | succ i =>
      simp only [List.getElem?_cons_succ] at h
      have hi : i < rest.length := by
        by_contra hn
        rw [List.getElem?_eq_none (by omega)] at h
        cases h
      simp only [List.length_cons, Nat.cast_add, Nat.cast_one] at hhi
      have hw : wrapInt32 (counter + 1) = counter + 1 := wrapInt32_succ hlo (by omega)
      obtain ⟨w', hw', hn'⟩ := ih (counter + 1) (by omega) (by omega) i config h
      refine ⟨w', ?_, ?_⟩
      · simp only [runSeries, hrun, hw, List.getElem?_cons_succ, hw']
        simp only [Nat.cast_add, Nat.cast_one, Option.some.injEq, Prod.mk.injEq, and_true]
        omega
      · rw [hn']
        congr 1
        simp only [Nat.cast_add, Nat.cast_one]
        omega

/-- C8 as stated fails: the static counter is a 32-bit `std::atomic_int`, so
from 2147483647 the increment of `createContext` wraps to -2147483648, and two
orchestrators run one after the other get the numbers 2147483647 and
-2147483648, which are not increasing. -/
theorem counter_wraps_at_int_max :
    (createContext 2147483647 (Watchdog.new scenarioB)).1 = -2147483648 ∧
    (runSeries quiet 2147483647 [scenarioB, scenarioB]).map (fun r => (r.1, r.2.scopeName)) =
      [(2147483647, "Watchdog 2147483647"), (-2147483648, "Watchdog -2147483648")] ∧
    ¬ ((2147483647 : Int) < -2147483648) :=
  ⟨by decide, by decide, by decide⟩

/-- C8, amended: `createContext` names the context with the value of the `Name`
option when that option exists and otherwise with `Watchdog ` followed by the
decimal value the static counter had before the call, and it adds one to the
counter as long as the counter is below 2147483647. The counter is changed by
`createContext` only, once in each run of `slot_watchdogRun`; so in a
sequential series of orchestrators that starts with the counter at `counter`
and has at most `2147483648 - counter` members, the i-th run finds the counter
at `counter + i`, the numbers used are strictly increasing, and no two
orchestrators without a `Name` option get the same scope name. -/
theorem default_scope_names (cb : Collaborators) (counter : Int)
    (configs : List Configuration) (hlo : -2147483648 ≤ counter)
    (hhi : counter + configs.length ≤ 2147483648) :
    (∀ w : Watchdog, ∃ c, (createContext counter w).2.context = some c ∧
      c.name = (if w.config.configOptionExists "Name" ≠ 0 then w.config.getConfigOption "Name"
        else "Watchdog " ++ toString counter)) ∧
    (∀ w : Watchdog, counter < 2147483647 → (createContext counter w).1 = counter + 1) ∧
    (∀ (i : Nat) (config : Configuration), configs[i]? = some config →
      ∃ w, (runSeries cb counter configs)[i]? = some (counter + i, w) ∧
        w.scopeName = (if config.configOptionExists "Name" ≠ 0 then
          config.getConfigOption "Name" else "Watchdog " ++ toString (counter + i))) ∧
    (∀ (i j : Nat) (ci cj : Configuration) (ni nj : Int) (wi wj : Watchdog), i < j →
      configs[i]? = some ci → configs[j]? = some cj →
      (runSeries cb counter configs)[i]? = some (ni, wi) →
      (runSeries cb counter configs)[j]? = some (nj, wj) →
      ni < nj ∧
      (ci.configOptionExists "Name" = 0 → cj.configOptionExists "Name" = 0 →
        wi.scopeName ≠ wj.scopeName)) := by
  refine ⟨?_, ?_, ?_, ?_⟩
  · intro w
    exact ⟨_, by rw [createContext_eq], rfl⟩
  · intro w h
    rw [createContext_eq]
    exact wrapInt32_succ hlo h
  · intro i config h
    exact runSeries_spec cb configs counter hlo hhi i config h
  · intro i j ci cj ni nj wi wj hij hi hj hsi hsj
    obtain ⟨wi', hi', hni⟩ := runSeries_spec cb configs counter hlo hhi i ci hi
    obtain ⟨wj', hj', hnj⟩ := runSeries_spec cb configs counter hlo hhi j cj hj
    rw [hsi] at hi'
    rw [hsj] at hj'
    simp only [Option.some.injEq, Prod.mk.injEq] at hi' hj'
    obtain ⟨rfl, rfl⟩ := hi'
    obtain ⟨rfl, rfl⟩ := hj'
    refine ⟨by omega, ?_⟩
    intro h0i h0j heq
    rw [hni, hnj] at heq
    simp only [contextName, h0i, h0j, ne_eq, not_true_eq_false, if_false] at heq
    have := default_name_injective heq
    omega

/-- C8 amended, at a series of three orchestrators from a counter of 0. -/
theorem default_scope_names_witness :
    (-2147483648 : Int) ≤ 0 ∧
    (0 : Int) + [scenarioB, scenarioA, scenarioB].length ≤ 2147483648 ∧
    (runSeries quiet 0 [scenarioB, scenarioA, scenarioB]).map (fun r => (r.1, r.2.scopeName)) =
      [(0, "Watchdog 0"), (1, "Watchdog 1"), (2, "Watchdog 2")] ∧
    (∀ (i : Nat) (config : Configuration),
      [scenarioB, scenarioA, scenarioB][i]? = some config →
      ∃ w, (runSeries quiet 0 [scenarioB, scenarioA, scenarioB])[i]? = some ((0 : Int) + i, w) ∧
        w.scopeName = (if config.configOptionExists "Name" ≠ 0 then
          config.getConfigOption "Name" else "Watchdog " ++ toString ((0 : Int) + i))) :=
  ⟨by decide, by decide, by decide,
    (default_scope_names quiet 0 [scenarioB, scenarioA, scenarioB] (by decide)
      (by decide)).2.2.1⟩

end AutopinPlus
